import Mathlib

/-!
# KnobGUI — verification of the Device Session protocol layer

Shallow embedding of the serial telemetry/command protocol layer of the
KnobGUI repository (command encoding, response decoding, liveness and
reconnection), translated from the source:

* `src/public/preload.js`   — the main UI variant (`MiniTFDControl`): its
  `handleSerialData`, `connect`, `handleReconnection`,
  `checkDeviceResponsiveness`, `sendTFDConfig`, `updateState`,
  `formatTFDCommand`.
* `src/components/mini-tfd-control.tsx` — the older UI variant with the
  single-field decoder.
* `src/public/electron.js`  — the `serial-write` IPC handler.
* `src/unnamed/part_000`    — the `useHapticSerial` hook and its
  `formatHapticCommand`.

JavaScript strings are modelled as `List Char`; JavaScript numbers that flow
through `parseFloat` are modelled by `JSNum` (a rational, an infinity, or
NaN); configuration values coming from the UI are modelled as `ℚ`.
-/

namespace KnobGUI

/-- JavaScript strings, modelled as lists of characters. -/
abbrev JSStr := List Char

/-- Characters treated as whitespace by `String.prototype.trim` (ASCII part). -/
def jsIsWhitespace (c : Char) : Bool :=
  c = ' ' || c = '\t' || c = '\n' || c = '\r' || c = '\x0b' || c = '\x0c'

/-- Model of `String.prototype.trim`: drop whitespace from both ends. -/
def jsTrim (s : JSStr) : JSStr :=
  ((s.dropWhile jsIsWhitespace).reverse.dropWhile jsIsWhitespace).reverse

/-- Model of `String.prototype.includes`: substring containment. -/
def containsL (needle : JSStr) : JSStr → Bool
  | [] => needle.isEmpty
  | c :: t => needle.isPrefixOf (c :: t) || containsL needle t

/-- Model of `String.prototype.split(sep)` for a one-character separator:
splits at every occurrence, keeping empty segments. -/
def jsSplit (sep : Char) : JSStr → List JSStr
  | [] => [[]]
  | c :: t =>
    if c = sep then [] :: jsSplit sep t
    else
      match jsSplit sep t with
      | [] => [[c]]
      | h :: r => (c :: h) :: r

/-- The character class `[-\d.]` used by the telemetry regexes. -/
def numClass (c : Char) : Bool := c = '-' || c.isDigit || c = '.'

/-- Model of `str.match(/PAT([-\d.]+)/)`, returning the first capture group:
the leftmost occurrence of the literal `pat` that is immediately followed by
at least one character of the class `[-\d.]`, capturing the maximal run. -/
def regexCapture (pat : JSStr) : JSStr → Option JSStr
  | [] => none
  | c :: t =>
    if pat.isPrefixOf (c :: t) then
      let rest := (c :: t).drop pat.length
      let cap := rest.takeWhile numClass
      if cap.isEmpty then regexCapture pat t else some cap
    else regexCapture pat t

/-- The value of a JavaScript expression of number type as far as the decoder
is concerned: a finite (exact) rational, a signed infinity, or NaN. -/
inductive JSNum where
  | num (q : ℚ)
  | inf (neg : Bool)
  | nan
  deriving Repr, DecidableEq

/-- Numeric value of a digit string (most significant first). -/
def digitsToNat (l : List Char) : Nat :=
  l.foldl (fun acc c => acc * 10 + (c.toNat - 48)) 0

/-- Model of `Number.parseFloat`: skip leading whitespace, optional sign,
`Infinity`, or a decimal literal `digits [. digits] [e[±]digits]`; everything
after the longest valid prefix is ignored; no valid prefix gives NaN. -/
def parseFloat (s : JSStr) : JSNum :=
  let s1 := s.dropWhile jsIsWhitespace
  let neg : Bool := match s1 with | c :: _ => c = '-' | [] => false
  let signed : Bool := match s1 with | c :: _ => c = '-' || c = '+' | [] => false
  let s2 := if signed then s1.tail else s1
  if (String.toList "Infinity").isPrefixOf s2 then JSNum.inf neg
  else
    let intDs := s2.takeWhile Char.isDigit
    let r1 := s2.dropWhile Char.isDigit
    let hasDot : Bool := match r1 with | c :: _ => c = '.' | [] => false
    let fracDs := if hasDot then r1.tail.takeWhile Char.isDigit else []
    let r2 := if hasDot then r1.tail.dropWhile Char.isDigit else r1
    if intDs.isEmpty && fracDs.isEmpty then JSNum.nan
    else
      let mant : ℚ :=
        (digitsToNat intDs : ℚ) + (digitsToNat fracDs : ℚ) / (10 : ℚ) ^ fracDs.length
      let expPart : Bool × Nat :=
        match r2 with
        | c :: t =>
          if c = 'e' || c = 'E' then
            match t with
            | d :: u =>
              if d = '-' then (true, digitsToNat (u.takeWhile Char.isDigit))
              else if d = '+' then (false, digitsToNat (u.takeWhile Char.isDigit))
              else (false, digitsToNat (t.takeWhile Char.isDigit))
            | [] => (false, 0)
          else (false, 0)
        | [] => (false, 0)
      let v : ℚ :=
        if expPart.1 then mant / (10 : ℚ) ^ expPart.2 else mant * (10 : ℚ) ^ expPart.2
      JSNum.num (if neg then -v else v)

/-- Model of `Number.prototype.toFixed(1)` on an exact rational: round to the
nearest tenth, ties toward the larger value (ECMA-262), then print with
exactly one fractional digit. The rounded integer `n = ⌊q·10 + 1/2⌋` is
computed on the numerator/denominator directly
(`⌊(20·num + den) / (2·den)⌋` with integer floor division) so that concrete
instances reduce by kernel computation. -/
def toFixed1 (q : ℚ) : String :=
  let n : ℤ := Int.fdiv (q.num * 20 + q.den) (2 * q.den)
  let sgn := if n < 0 then "-" else ""
  let m := n.natAbs
  sgn ++ toString (m / 10) ++ "." ++ toString (m % 10)

/-- Least `k ≥ start` (within `fuel`) with `q * 10 ^ k` integral. -/
def decDigitsAux (q : ℚ) (start : Nat) : Nat → Nat
  | 0 => start
  | fuel + 1 => if (q * (10 : ℚ) ^ start).den = 1 then start else decDigitsAux q (start + 1) fuel

/-- Model of JavaScript default number-to-string conversion (template-literal
interpolation) for decimal-representable values: the shortest plain decimal
form. -/
def jsNumRepr (q : ℚ) : String :=
  let sgn := if q < 0 then "-" else ""
  let a := |q|
  if a.den = 1 then sgn ++ toString a.num.natAbs
  else
    let k := decDigitsAux a 1 64
    let m := (a * (10 : ℚ) ^ k).num.natAbs
    let ip := m / 10 ^ k
    let fp := m % 10 ^ k
    let fs := toString fp
    sgn ++ toString ip ++ "." ++ (String.mk (List.replicate (k - fs.length) '0') ++ fs)

/-! ## Data model: `TFDState` and partial updates (`updateState`) -/

/-- The UI/session state of the `MiniTFDControl` component
(`src/public/preload.js` interface `TFDState`; the
`src/components/mini-tfd-control.tsx` variant uses the same fields, with the
decoder also writing `currentTorque` at runtime). Telemetry fields hold
`JSNum` since they are fed by `parseFloat`; configuration fields hold exact
rationals. -/
structure TFDState where
  mode : String
  currentAngle : JSNum
  currentVelocity : JSNum
  currentTorque : JSNum
  torque : ℚ
  stiffness : ℚ
  targetAngle : ℚ
  selectedPort : String
  baudRate : Nat
  isPolling : Bool
  pollInterval : Nat
  endstopTurns : ℚ
  endstopMinAngle : ℚ
  endstopMaxAngle : ℚ
  deviceType : String
  endstopMode : String
  isSticky : Bool
  deriving Repr, DecidableEq

/-- A `Partial<TFDState>` argument to `updateState`: each field optional. -/
structure TFDUpdate where
  mode : Option String := none
  currentAngle : Option JSNum := none
  currentVelocity : Option JSNum := none
  currentTorque : Option JSNum := none
  torque : Option ℚ := none
  stiffness : Option ℚ := none
  targetAngle : Option ℚ := none
  selectedPort : Option String := none
  baudRate : Option Nat := none
  isPolling : Option Bool := none
  pollInterval : Option Nat := none
  endstopTurns : Option ℚ := none
  endstopMinAngle : Option ℚ := none
  endstopMaxAngle : Option ℚ := none
  deviceType : Option String := none
  endstopMode : Option String := none
  isSticky : Option Bool := none
  deriving Repr, DecidableEq

/-- `updateState` (`src/public/preload.js` lines 287-300, identical in
`src/components/mini-tfd-control.tsx` lines 150-163): spread the update over
the previous state, then, when the update carries `endstopTurns`, recompute
`endstopMinAngle`/`endstopMaxAngle` as `∓(turns*360)/2`. -/
def updateState (u : TFDUpdate) (s : TFDState) : TFDState :=
  let m : TFDState :=
    { mode := u.mode.getD s.mode
      currentAngle := u.currentAngle.getD s.currentAngle
      currentVelocity := u.currentVelocity.getD s.currentVelocity
      currentTorque := u.currentTorque.getD s.currentTorque
      torque := u.torque.getD s.torque
      stiffness := u.stiffness.getD s.stiffness
      targetAngle := u.targetAngle.getD s.targetAngle
      selectedPort := u.selectedPort.getD s.selectedPort
      baudRate := u.baudRate.getD s.baudRate
      isPolling := u.isPolling.getD s.isPolling
      pollInterval := u.pollInterval.getD s.pollInterval
      endstopTurns := u.endstopTurns.getD s.endstopTurns
      endstopMinAngle := u.endstopMinAngle.getD s.endstopMinAngle
      endstopMaxAngle := u.endstopMaxAngle.getD s.endstopMaxAngle
      deviceType := u.deviceType.getD s.deviceType
      endstopMode := u.endstopMode.getD s.endstopMode
      isSticky := u.isSticky.getD s.isSticky }
  match u.endstopTurns with
  | some t => { m with endstopMinAngle := -(t * 360) / 2, endstopMaxAngle := (t * 360) / 2 }
  | none => m

/-- The initial state of the `src/public/preload.js` variant (lines 203-221). -/
def initialStatePreload : TFDState :=
  { mode := "none", currentAngle := JSNum.num 0, currentVelocity := JSNum.num 0
    currentTorque := JSNum.num 0, torque := 1 / 5, stiffness := 4 / 5, targetAngle := 0
    selectedPort := "", baudRate := 115200, isPolling := true, pollInterval := 20
    endstopTurns := 1, endstopMinAngle := -180, endstopMaxAngle := 180
    deviceType := "knob", endstopMode := "none", isSticky := false }

/-- The initial state of the `src/components/mini-tfd-control.tsx` variant
(lines 101-115; it does not list `deviceType`/`endstopMode`/`isSticky` or
`currentTorque`, so those take the runtime pre-assignment values). -/
def initialStateMini : TFDState :=
  { mode := "none", currentAngle := JSNum.num 0, currentVelocity := JSNum.num 0
    currentTorque := JSNum.num 0, torque := 1 / 5, stiffness := 4 / 5, targetAngle := 0
    selectedPort := "", baudRate := 115200, isPolling := true, pollInterval := 30
    endstopTurns := 5 / 2, endstopMinAngle := -450, endstopMaxAngle := 450
    deviceType := "knob", endstopMode := "none", isSticky := false }

/-! ## Response decoders -/

/-- `Math.min` on decoder values (NaN-propagating). -/
def jsMin : JSNum → JSNum → JSNum
  | JSNum.nan, _ => JSNum.nan
  | _, JSNum.nan => JSNum.nan
  | JSNum.inf true, _ => JSNum.inf true
  | _, JSNum.inf true => JSNum.inf true
  | JSNum.inf false, b => b
  | a, JSNum.inf false => a
  | JSNum.num a, JSNum.num b => JSNum.num (min a b)

/-- `Math.max` on decoder values (NaN-propagating). -/
def jsMax : JSNum → JSNum → JSNum
  | JSNum.nan, _ => JSNum.nan
  | _, JSNum.nan => JSNum.nan
  | JSNum.inf false, _ => JSNum.inf false
  | _, JSNum.inf false => JSNum.inf false
  | JSNum.inf true, b => b
  | a, JSNum.inf true => a
  | JSNum.num a, JSNum.num b => JSNum.num (max a b)

/-- `clampAngle` in `src/public/preload.js` (lines 303-310): the endstop
clamp is commented out there, so every angle passes through unchanged. -/
def clampAnglePreload (_s : TFDState) (v : JSNum) : JSNum := v

/-- `clampAngle` in `src/components/mini-tfd-control.tsx` (lines 166-173):
clamp into `[endstopMinAngle, endstopMaxAngle]` when mode is `endstops`. -/
def clampAngleMini (s : TFDState) (v : JSNum) : JSNum :=
  if s.mode = "endstops" then
    jsMax (JSNum.num s.endstopMinAngle) (jsMin (JSNum.num s.endstopMaxAngle) v)
  else v

/-- The combined-format check of `src/public/preload.js` `handleSerialData`
(line 910): `startsWith("ANGLE:") && includes("VEL:") && includes("TORQUE:")`. -/
def isSensorDataPreload (clean : JSStr) : Bool :=
  (String.toList "ANGLE:").isPrefixOf clean
    && containsL (String.toList "VEL:") clean
    && containsL (String.toList "TORQUE:") clean

/-- A line that resets the liveness countdown in the `preload.js` variant:
the combined sensor format, or the exact literal `OK` (lines 910-915). -/
def classifiedPreload (clean : JSStr) : Bool :=
  isSensorDataPreload clean || clean = String.toList "OK"

/-- A line that resets the liveness countdown in the `mini-tfd-control.tsx`
variant (lines 2145-2148): any `ANGLE:`/`VEL:`/`TORQUE:` prefix, or `OK`. -/
def classifiedMini (clean : JSStr) : Bool :=
  (String.toList "ANGLE:").isPrefixOf clean
    || (String.toList "VEL:").isPrefixOf clean
    || (String.toList "TORQUE:").isPrefixOf clean
    || clean = String.toList "OK"

/-- Result of running a decoder: the new component state, the warning-level
diagnostics emitted (`console.warn`), and whether an exception was thrown
inside the `try` block and caught (`console.error`). -/
structure DecodeResult where
  state : TFDState
  warnings : List String
  caught : Bool
  deriving Repr, DecidableEq

/-- The "Update angle if valid" block (`preload.js` lines 956-967): if the
`ANGLE:` capture exists and parses to a non-NaN value, merge the (identity-)
clamped angle; a NaN parse appends a warning. -/
def applyAngleCap (acc : TFDState × List String) : Option JSStr → TFDState × List String
  | some cap =>
    match parseFloat cap with
    | JSNum.nan => (acc.1, acc.2 ++ ["Invalid angle value"])
    | v => (updateState { currentAngle := some (clampAnglePreload acc.1 v) } acc.1, acc.2)
  | none => acc

/-- The "Update velocity if valid" block (`preload.js` lines 970-979). -/
def applyVelCap (acc : TFDState × List String) : Option JSStr → TFDState × List String
  | some cap =>
    match parseFloat cap with
    | JSNum.nan => (acc.1, acc.2 ++ ["Invalid velocity value"])
    | v => (updateState { currentVelocity := some v } acc.1, acc.2)
  | none => acc

/-- The "Update torque if valid" block (`preload.js` lines 982-990). -/
def applyTorqueCap (acc : TFDState × List String) : Option JSStr → TFDState × List String
  | some cap =>
    match parseFloat cap with
    | JSNum.nan => (acc.1, acc.2 ++ ["Invalid torque value"])
    | v => (updateState { currentTorque := some v } acc.1, acc.2)
  | none => acc

/-- Telemetry part of `handleSerialData` in `src/public/preload.js`
(lines 904-1008): only the combined `ANGLE:…,VEL:…,TORQUE:…` shape is parsed.
The line is trimmed and split on `,`; the three captures
`/ANGLE:([-\d.]+)/`, `/VEL:([-\d.]+)/`, `/TORQUE:([-\d.]+)/` are taken from
parts 0, 1, 2 and the three update blocks run in source order.
Fewer than three parts makes `parts[1].match`/`parts[2].match` throw before
any update; the surrounding `try`/`catch` swallows the exception. -/
def decodePreload (data : JSStr) (s : TFDState) : DecodeResult :=
  let clean := jsTrim data
  if isSensorDataPreload clean then
    match jsSplit ',' clean with
    | p0 :: p1 :: p2 :: _ =>
      let aM := regexCapture (String.toList "ANGLE:") p0
      let vM := regexCapture (String.toList "VEL:") p1
      let tM := regexCapture (String.toList "TORQUE:") p2
      let acc := applyTorqueCap (applyVelCap (applyAngleCap (s, []) aM) vM) tM
      ⟨acc.1, acc.2, false⟩
    | _ => ⟨s, [], true⟩
  else ⟨s, [], false⟩

/-- Telemetry part of `handleSerialData` in
`src/components/mini-tfd-control.tsx` (lines 2139-2200): single-field lines
`ANGLE:…`/`VEL:…`/`TORQUE:…` are parsed with `parseFloat` on the suffix after
the prefix; a NaN parse warns and leaves the field unchanged; any other line
is logged as unhandled. -/
def decodeMini (data : JSStr) (s : TFDState) : DecodeResult :=
  let clean := jsTrim data
  if (String.toList "ANGLE:").isPrefixOf clean then
    match parseFloat (clean.drop 6) with
    | JSNum.nan => ⟨s, ["Received non-numeric angle data"], false⟩
    | v => ⟨updateState { currentAngle := some (clampAngleMini s v) } s, [], false⟩
  else if (String.toList "VEL:").isPrefixOf clean then
    match parseFloat (clean.drop 4) with
    | JSNum.nan => ⟨s, ["Received non-numeric velocity data"], false⟩
    | v => ⟨updateState { currentVelocity := some v } s, [], false⟩
  else if (String.toList "TORQUE:").isPrefixOf clean then
    match parseFloat (clean.drop 7) with
    | JSNum.nan => ⟨s, ["Received non-numeric torque data"], false⟩
    | v => ⟨updateState { currentTorque := some v } s, [], false⟩
  else ⟨s, ["Received unhandled serial data"], false⟩

/-! ## Specification-side representation of float literals

Used to state the decoder theorems: a `FloatLit` is a decimal float literal
`[-]digits[.digits]` together with its mathematical value. -/

/-- A decimal float literal: optional minus sign, integer digits, optional
fractional digits. -/
structure FloatLit where
  neg : Bool
  intDigits : List Char
  fracDigits : Option (List Char)
  deriving Repr, DecidableEq

/-- Well-formedness: all digit characters, and at least one digit present. -/
def FloatLit.wf (f : FloatLit) : Prop :=
  (∀ c ∈ f.intDigits, c.isDigit = true) ∧
  (∀ fs ∈ f.fracDigits, ∀ c ∈ fs, c.isDigit = true) ∧
  (f.intDigits ≠ [] ∨ ∃ fs, f.fracDigits = some fs ∧ fs ≠ [])

/-- The literal's text. -/
def FloatLit.render (f : FloatLit) : JSStr :=
  (if f.neg then ['-'] else []) ++ f.intDigits
    ++ (match f.fracDigits with | some fs => '.' :: fs | none => [])

/-- The literal's mathematical value. -/
def FloatLit.value (f : FloatLit) : ℚ :=
  (if f.neg then -1 else 1) *
    ((digitsToNat f.intDigits : ℚ) +
      (match f.fracDigits with
       | some fs => (digitsToNat fs : ℚ) / (10 : ℚ) ^ fs.length
       | none => 0))

/-- A combined telemetry line `ANGLE:<f1>,VEL:<f2>,TORQUE:<f3>`. -/
def mkCombined (f1 f2 f3 : FloatLit) : JSStr :=
  String.toList "ANGLE:" ++ f1.render ++ String.toList ",VEL:" ++ f2.render
    ++ String.toList ",TORQUE:" ++ f3.render

/-! ## Command encoders -/

/-- `formatTFDCommand` (`src/public/preload.js` lines 2145-2189): the mode →
wire-line table, with the `endstops` sub-switch on `endstopMode` and a
`default` branch that silently falls back to `set normal\n`. -/
def formatTFDCommand (c : TFDState) : String :=
  if c.mode = "none" then "set normal\n"
  else if c.mode = "soft-detents" then "set detent:ultra\n"
  else if c.mode = "medium-detents" then "set detent:fine\n"
  else if c.mode = "rough-detents" then "set detent:coarse\n"
  else if c.mode = "clockwise" then "set cw\n"
  else if c.mode = "counterclockwise" then "set ccw\n"
  else if c.mode = "increased-torque" then "set constant:" ++ toFixed1 c.torque ++ "\n"
  else if c.mode = "lock" then "set constant:1.0\n"
  else if c.mode = "endstops" then
    if c.endstopMode = "proportional" then
      "set endstops-proportional:" ++ toFixed1 c.endstopTurns ++ "\n"
    else if c.endstopMode = "soft" then
      "set endstops-ultra:" ++ toFixed1 c.endstopTurns ++ "\n"
    else if c.endstopMode = "medium" then
      "set endstops-fine:" ++ toFixed1 c.endstopTurns ++ "\n"
    else if c.endstopMode = "rough" then
      "set endstops-coarse:" ++ toFixed1 c.endstopTurns ++ "\n"
    else if c.endstopMode = "center" then
      "set endstops-center:" ++ toFixed1 c.endstopTurns ++ "\n"
    else "set endstops:" ++ toFixed1 c.endstopTurns ++ "\n"
  else if c.mode = "center-detent" then "set detent:center\n"
  else if c.mode = "proportional-control" then
    "set proportional:" ++ toFixed1 c.targetAngle ++ "," ++ toFixed1 c.stiffness ++ "\n"
  else if c.mode = "inertial-control" then "set inertial:" ++ toFixed1 c.stiffness ++ "\n"
  else if c.mode = "latch" then "set latch\n"
  else "set normal\n"

/-- The documented mode enumeration (spec §3 / `HapticMode` union type). -/
def documentedModes : List String :=
  ["none", "soft-detents", "medium-detents", "rough-detents", "clockwise",
   "counterclockwise", "increased-torque", "lock", "endstops", "center-detent",
   "proportional-control", "inertial-control", "latch"]

/-- The `HapticConfig` of `src/unnamed/part_000` (`useHapticSerial`): `mode`
is a plain string and the numeric fields are optional. -/
structure HapticConfig where
  mode : String
  angle : ℚ
  torque : Option ℚ := none
  stiffness : Option ℚ := none
  targetAngle : Option ℚ := none
  deriving Repr, DecidableEq

/-- JavaScript `x || d` on an optional number: `undefined` and `0` are falsy. -/
def jsOrDefault (x : Option ℚ) (d : ℚ) : ℚ :=
  match x with
  | some v => if v = 0 then d else v
  | none => d

/-- `formatHapticCommand` (`src/unnamed/part_000` lines 377-405): the
`MODE:` protocol variant, whose `default` branch interpolates the
upper-cased mode into `MODE:<MODE>\n`. -/
def formatHapticCommand (c : HapticConfig) : String :=
  if c.mode = "none" then "MODE:NONE\n"
  else if c.mode = "soft-detents" then "MODE:DETENTS,SOFT\n"
  else if c.mode = "medium-detents" then "MODE:DETENTS,MEDIUM\n"
  else if c.mode = "rough-detents" then "MODE:DETENTS,ROUGH\n"
  else if c.mode = "clockwise" then "MODE:CLOCKWISE\n"
  else if c.mode = "counterclockwise" then "MODE:COUNTERCLOCKWISE\n"
  else if c.mode = "increased-torque" then
    "MODE:TORQUE," ++ jsNumRepr (jsOrDefault c.torque (1 / 2)) ++ "\n"
  else if c.mode = "lock" then "MODE:LOCK\n"
  else if c.mode = "endstops" then "MODE:ENDSTOPS\n"
  else if c.mode = "center-detent" then "MODE:CENTER_DETENT\n"
  else if c.mode = "proportional-control" then
    "MODE:PROPORTIONAL," ++ jsNumRepr (jsOrDefault c.stiffness (4 / 5)) ++ ","
      ++ jsNumRepr (jsOrDefault c.targetAngle 0) ++ "\n"
  else "MODE:" ++ (String.mk (c.mode.toList.map Char.toUpper)) ++ "\n"

/-- `sendTFDConfig` (`src/public/preload.js` lines 704-738), successful-write
path: the lines handed to `serialWrite`, namely the encoded command and then,
exactly when the mode is `endstops`, the independent sticky line. -/
def sendTFDConfigLines (s : TFDState) : List String :=
  formatTFDCommand s
    :: (if s.mode = "endstops" then
          ["set sticky:" ++ (if s.isSticky then "on" else "off") ++ "\n"]
        else [])

/-! ## Transport: the `serial-write` IPC handler (`src/public/electron.js`) -/

/-- The main-process serial port as the `serial-write` handler sees it. -/
structure PortState where
  isOpen : Bool
  writeError : Option String
  deriving Repr, DecidableEq

/-- Result shape `{ success, error? }` of the IPC handlers. -/
structure WriteResult where
  success : Bool
  error : Option String
  deriving Repr, DecidableEq

/-- The `serial-write` handler (`src/public/electron.js` lines 355-379): if a
port is open, perform the write (an exception yields `success: false`);
otherwise log "Mock write" and fall through to `return { success: true }`. -/
def serialWriteHandler (port : Option PortState) : WriteResult :=
  match port with
  | some p =>
    if p.isOpen then
      match p.writeError with
      | some e => ⟨false, some e⟩
      | none => ⟨true, none⟩
    else ⟨true, none⟩
  | none => ⟨true, none⟩

/-- `checkDeviceResponsiveness` (`src/public/preload.js` lines 404-414):
write `get all\n` and report the write's `success` flag. -/
def checkDeviceResponsiveness (port : Option PortState) : Bool :=
  (serialWriteHandler port).success

/-! ## Session state machine (`src/public/preload.js`) -/

/-- The renderer-side session bookkeeping of `MiniTFDControl` in
`src/public/preload.js`: the `useState`/`useRef` cells that drive liveness
and reconnection, together with observation logs (performed writes, closes,
waits, opens, armed grace periods, reconnect triggers, classified lines). -/
structure SessionState where
  isConnected : Bool := false
  isConnecting : Bool := false
  isDeviceResponding : Bool := false
  isInGracePeriod : Bool := false
  isReconnecting : Bool := false
  hasAttemptedReconnect : Bool := false
  reconnectAttempts : Nat := 0
  error : Option String := none
  lastPortPath : Option String := none
  lastBaudRate : Nat := 115200
  responseTimeout : Option Nat := none
  graceTimer : Option Nat := none
  reconnectTriggers : Nat := 0
  writes : List String := []
  closeCount : Nat := 0
  waits : List Nat := []
  openCalls : List (String × Nat) := []
  gracePeriodsArmed : List Nat := []
  classifiedCount : Nat := 0
  deriving Repr, DecidableEq

/-- The empty session (all cells at their `useState` initial values). -/
def initialSession : SessionState := {}

/-- Liveness part of `handleSerialData` (`src/public/preload.js` lines
904-934): a classified line (combined telemetry or `OK`) marks the device
responding, clears the error, and replaces the response-timeout with a fresh
2000 ms countdown; any other line leaves the session untouched. -/
def stepLine (data : JSStr) (st : SessionState) : SessionState :=
  let clean := jsTrim data
  if classifiedPreload clean then
    { st with isDeviceResponding := true, error := none, responseTimeout := some 2000,
              classifiedCount := st.classifiedCount + 1 }
  else st

/-- The response-timeout callback (`src/public/preload.js` lines 923-933):
mark not responding, surface "Device stopped responding.", and — only when
the has-attempted flag is clear and the session is connected — set the flag
and trigger `handleReconnection` (recorded in `reconnectTriggers`). -/
def fireResponseTimeoutCb (st : SessionState) : SessionState :=
  let trigger := !st.hasAttemptedReconnect && st.isConnected
  { st with isDeviceResponding := false, error := some "Device stopped responding.",
            responseTimeout := none,
            hasAttemptedReconnect := st.hasAttemptedReconnect || trigger,
            reconnectTriggers := if trigger then st.reconnectTriggers + 1
                                 else st.reconnectTriggers }

/-- The grace-period callback armed by `connect` (`src/public/preload.js`
lines 522-531): leave the grace period, issue the `get all\n` probe via
`checkDeviceResponsiveness`, and mark the device responding exactly when the
write succeeded (`writeOk`), surfacing an error otherwise. -/
def fireGraceConnectCb (writeOk : Bool) (st : SessionState) : SessionState :=
  { st with isInGracePeriod := false, graceTimer := none,
            writes := st.writes ++ ["get all\n"],
            isDeviceResponding := writeOk,
            error := if writeOk then st.error
                     else some "Device not responding after connection" }

/-- Outcome of one reconnection attempt, as seen by `handleReconnection`:
either the reopen fails, or it succeeds and the post-grace probe write
reports `responding`. -/
inductive AttemptOutcome where
  | openFail
  | openOk (responding : Bool)
  deriving Repr, DecidableEq

/-- `handleReconnection` (`src/public/preload.js` lines 417-472), sequential
reading: guarded by `isReconnecting`/`reconnectAttempts >= 3`/missing last
port; each attempt closes the transport, waits 1000 ms, reopens with the last
known port and baud; a reopen failure or a failed post-grace responsiveness
probe increments `reconnectAttempts` and recurses while `attempts + 1 < 3`,
otherwise surfaces the terminal error; a successful probe marks the device
responding and clears the attempt counter and the has-attempted flag. -/
def runReconnect : List AttemptOutcome → SessionState → SessionState
  | [], st => st
  | o :: rest, st =>
    if st.isReconnecting ∨ 3 ≤ st.reconnectAttempts ∨ st.lastPortPath = none then st
    else
      let port := st.lastPortPath.getD ""
      let st1 := { st with closeCount := st.closeCount + 1,
                           waits := st.waits ++ [1000],
                           openCalls := st.openCalls ++ [(port, st.lastBaudRate)] }
      match o with
      | AttemptOutcome.openFail =>
        if st1.reconnectAttempts + 1 < 3 then
          runReconnect rest { st1 with reconnectAttempts := st1.reconnectAttempts + 1 }
        else
          { st1 with reconnectAttempts := st1.reconnectAttempts + 1,
                     error := some "Failed to reconnect after multiple attempts" }
      | AttemptOutcome.openOk responding =>
        let st2 := { st1 with isConnected := true,
                              gracePeriodsArmed := st1.gracePeriodsArmed ++ [2000],
                              isInGracePeriod := false,
                              writes := st1.writes ++ ["get all\n"] }
        if responding then
          { st2 with isDeviceResponding := true, reconnectAttempts := 0,
                     hasAttemptedReconnect := false }
        else
          if st2.reconnectAttempts + 1 < 3 then
            runReconnect rest { st2 with reconnectAttempts := st2.reconnectAttempts + 1 }
          else
            { st2 with reconnectAttempts := st2.reconnectAttempts + 1,
                       error := some "Device not responding after reconnection attempts",
                       isDeviceResponding := false }

/-- `connect` (`src/public/preload.js` lines 475-546) with the transport-open
outcome `openOk`: store the connection details, reset the reconnection
bookkeeping, clear any pending response timeout, then on open success enter
the 2000 ms grace period; on failure surface the error. -/
def connect (port : String) (baud : Nat) (openOk : Bool) (st : SessionState) : SessionState :=
  let st1 := { st with lastPortPath := some port, lastBaudRate := baud,
                       reconnectAttempts := 0, hasAttemptedReconnect := false,
                       isConnecting := false, error := none,
                       isDeviceResponding := false, responseTimeout := none,
                       openCalls := st.openCalls ++ [(port, baud)] }
  if openOk then
    { st1 with isConnected := true, isInGracePeriod := true, graceTimer := some 2000,
               gracePeriodsArmed := st1.gracePeriodsArmed ++ [2000] }
  else
    { st1 with isConnected := false, error := some "Connection failed" }

/-- The in-session events: an inbound serial line, the passage of time, the
two timer callbacks, and an asynchronous `handleReconnection` run with its
attempt outcomes. (`connect`/`disconnect` start or end a session and are
modelled separately.) -/
inductive Ev where
  | line (data : JSStr)
  | elapse (d : Nat)
  | fireResponseTimeout
  | fireGraceConnect (writeOk : Bool)
  | reconnectRun (outcomes : List AttemptOutcome)
  deriving Repr, DecidableEq

/-- Time may pass only up to the nearest armed timer deadline. -/
def elapseOk (d : Nat) (st : SessionState) : Bool :=
  (match st.responseTimeout with | some t => decide (d ≤ t) | none => true)
    && (match st.graceTimer with | some t => decide (d ≤ t) | none => true)

/-- One in-session step: timer callbacks only fire at deadline 0, elapsing
decrements armed timers. -/
def step : Ev → SessionState → SessionState
  | Ev.line data, st => stepLine data st
  | Ev.elapse d, st =>
    if elapseOk d st then
      { st with responseTimeout := st.responseTimeout.map (· - d),
                graceTimer := st.graceTimer.map (· - d) }
    else st
  | Ev.fireResponseTimeout, st =>
    if st.responseTimeout = some 0 then fireResponseTimeoutCb st else st
  | Ev.fireGraceConnect w, st =>
    if st.graceTimer = some 0 then fireGraceConnectCb w st else st
  | Ev.reconnectRun outs, st => runReconnect outs st

/-- Run a list of events left to right. -/
def runEvents (es : List Ev) (st : SessionState) : SessionState :=
  es.foldl (fun s e => step e s) st

/-- Milliseconds of elapsed time in an event list. -/
def elapsedSum : List Ev → Nat
  | [] => 0
  | Ev.elapse d :: t => d + elapsedSum t
  | _ :: t => elapsedSum t

/-- Events that involve no inbound line and no reconnection run. -/
def quietEv : Ev → Bool
  | Ev.line _ => false
  | Ev.reconnectRun _ => false
  | _ => true

/-! # Theorems -/

/-! ## C5 — unknown modes and the silent encoder fallback -/

/-- C5: the claim states that for every configuration whose mode is outside
the documented enumeration the command encoder fails with an
UnknownMode/ConfigurationError and transmits nothing, never silently
emitting a best-guess command string. The code contradicts this: for the
out-of-enumeration mode `"turbo"`, `formatTFDCommand` silently emits the
fallback `set normal\n` and `formatHapticCommand` silently emits the
best-guess string `MODE:TURBO\n`; neither encoder can fail (both are total).
The claim's second half — the encoder never fails for a documented mode —
does hold (witnessed here by the encoder producing the table entry for
every documented mode of the concrete config). -/
theorem c5_unknown_mode_silent_fallback :
    "turbo" ∉ documentedModes ∧
    formatTFDCommand { initialStatePreload with mode := "turbo" } = "set normal\n" ∧
    formatHapticCommand { mode := "turbo", angle := 0 } = "MODE:TURBO\n" := by
  refine ⟨by decide, by decide, by decide⟩

/-! ## C6 — endstops command followed by the sticky line -/

/-- C6: applying the configuration {mode endstops, endstopMode soft,
endstopTurns 2.0, isSticky true} transmits exactly `set endstops-ultra:2.0\n`
followed by `set sticky:on\n`; and in general, after any endstops-family
command, `sendTFDConfig` sends an independent `set sticky:on\n`/
`set sticky:off\n` line reflecting `isSticky`. -/
theorem c6_endstops_sticky_line :
    (sendTFDConfigLines
        { initialStatePreload with
            mode := "endstops", endstopMode := "soft", endstopTurns := 2, isSticky := true }
      = ["set endstops-ultra:2.0\n", "set sticky:on\n"]) ∧
    (∀ s : TFDState, s.mode = "endstops" →
      sendTFDConfigLines s
        = [formatTFDCommand s,
           "set sticky:" ++ (if s.isSticky then "on" else "off") ++ "\n"]) := by
  constructor
  · decide
  · intro s h
    simp [sendTFDConfigLines, h]

/-- Witness for C6 at a concrete sticky-off configuration. -/
theorem c6_endstops_sticky_line_witness :
    sendTFDConfigLines { initialStatePreload with mode := "endstops" }
      = [formatTFDCommand { initialStatePreload with mode := "endstops" },
         "set sticky:"
           ++ (if ({ initialStatePreload with mode := "endstops" } : TFDState).isSticky
               then "on" else "off") ++ "\n"] :=
  c6_endstops_sticky_line.2 _ rfl

/-! ## C9 — derived endstop angles -/

/-- C9: every state update that carries `endstopTurns = t` leaves
`endstopMinAngle = -180*t` and `endstopMaxAngle = 180*t`; the invariant
`min = -max` holds in the initial state of both UI variants and is preserved
by every update, and updates not touching `endstopTurns` leave both derived
fields unchanged. (The preservation conjuncts assume the update does not
write the derived fields directly; no `updateState` call site in either
variant ever passes `endstopMinAngle`/`endstopMaxAngle`, so this covers
every update the program issues.) -/
theorem c9_endstop_angle_invariant :
    (∀ (u : TFDUpdate) (s : TFDState) (t : ℚ), u.endstopTurns = some t →
      (updateState u s).endstopMinAngle = -180 * t ∧
      (updateState u s).endstopMaxAngle = 180 * t) ∧
    initialStatePreload.endstopMinAngle = -initialStatePreload.endstopMaxAngle ∧
    initialStateMini.endstopMinAngle = -initialStateMini.endstopMaxAngle ∧
    (∀ (u : TFDUpdate) (s : TFDState),
      u.endstopMinAngle = none → u.endstopMaxAngle = none →
      s.endstopMinAngle = -s.endstopMaxAngle →
      (updateState u s).endstopMinAngle = -(updateState u s).endstopMaxAngle) ∧
    (∀ (u : TFDUpdate) (s : TFDState),
      u.endstopTurns = none → u.endstopMinAngle = none → u.endstopMaxAngle = none →
      (updateState u s).endstopMinAngle = s.endstopMinAngle ∧
      (updateState u s).endstopMaxAngle = s.endstopMaxAngle) := by
  refine ⟨?_, by decide, by decide, ?_, ?_⟩
  · intro u s t h
    simp only [updateState, h]
    constructor <;> ring
  · intro u s h1 h2 h3
    cases ht : u.endstopTurns with
    | some t => simp only [updateState, ht]; ring
    | none => simp [updateState, ht, h1, h2, h3]
  · intro u s h0 h1 h2
    simp [updateState, h0, h1, h2]

/-- Witness for C9: a concrete update setting `endstopTurns := 2` yields the
derived angles −360/360, and an unrelated update preserves the invariant. -/
theorem c9_endstop_angle_invariant_witness :
    ((updateState { endstopTurns := some 2 } initialStatePreload).endstopMinAngle = -180 * 2 ∧
      (updateState { endstopTurns := some 2 } initialStatePreload).endstopMaxAngle = 180 * 2) ∧
    (updateState { torque := some 1 } initialStatePreload).endstopMinAngle
      = -(updateState { torque := some 1 } initialStatePreload).endstopMaxAngle ∧
    ((updateState { torque := some 1 } initialStatePreload).endstopMinAngle
        = initialStatePreload.endstopMinAngle ∧
      (updateState { torque := some 1 } initialStatePreload).endstopMaxAngle
        = initialStatePreload.endstopMaxAngle) :=
  ⟨c9_endstop_angle_invariant.1 _ _ 2 rfl,
   c9_endstop_angle_invariant.2.2.2.1 _ _ rfl rfl (by decide),
   c9_endstop_angle_invariant.2.2.2.2 _ _ rfl rfl rfl⟩

/-! ## C10 — mock writes make the liveness probe report alive -/

/-- C10: when no serial port is open (or the serialport module was never
loaded), the main-process `serial-write` handler resolves with
`success: true` (a mock write); `checkDeviceResponsiveness` judges
responsiveness solely by that flag, so after the post-connect grace period
the session marks the device responding even though no classified line was
ever received and no device is attached. -/
theorem c10_mock_write_reports_alive :
    ∀ p : Option PortState,
      (p = none ∨ ∃ ps, p = some ps ∧ ps.isOpen = false) →
      serialWriteHandler p = ⟨true, none⟩ ∧
      checkDeviceResponsiveness p = true ∧
      ((step (Ev.fireGraceConnect (checkDeviceResponsiveness p))
          (step (Ev.elapse 2000)
            (connect "COM3" 115200 true initialSession))).isDeviceResponding = true ∧
        (step (Ev.fireGraceConnect (checkDeviceResponsiveness p))
          (step (Ev.elapse 2000)
            (connect "COM3" 115200 true initialSession))).classifiedCount = 0) := by
  intro p h
  have hw : serialWriteHandler p = ⟨true, none⟩ := by
    rcases h with h | ⟨ps, rfl, hps⟩
    · rw [h]; rfl
    · simp [serialWriteHandler, hps]
  have hc : checkDeviceResponsiveness p = true := by
    rw [checkDeviceResponsiveness, hw]
  refine ⟨hw, hc, ?_⟩
  rw [hc]
  exact ⟨by decide, by decide⟩

/-- Witness for C10 with the serialport module unavailable (`p = none`). -/
theorem c10_mock_write_reports_alive_witness :
    serialWriteHandler none = ⟨true, none⟩ ∧
    checkDeviceResponsiveness none = true ∧
    ((step (Ev.fireGraceConnect (checkDeviceResponsiveness none))
        (step (Ev.elapse 2000)
          (connect "COM3" 115200 true initialSession))).isDeviceResponding = true ∧
      (step (Ev.fireGraceConnect (checkDeviceResponsiveness none))
        (step (Ev.elapse 2000)
          (connect "COM3" 115200 true initialSession))).classifiedCount = 0) :=
  c10_mock_write_reports_alive none (Or.inl rfl)

/-! ## C1 — liveness countdown and single reconnect trigger -/

/-- Helper: a `handleReconnection` run can clear the has-attempted flag only
in its success branch, which also marks the device responding and zeroes the
attempt counter. -/
theorem runReconnect_flag_clear (outs : List AttemptOutcome) :
    ∀ st : SessionState, st.hasAttemptedReconnect = true →
      (runReconnect outs st).hasAttemptedReconnect = false →
      (runReconnect outs st).isDeviceResponding = true ∧
        (runReconnect outs st).reconnectAttempts = 0 := by
  induction outs with
  | nil =>
    intro st hf hc
    rw [runReconnect] at hc
    rw [hf] at hc
    cases hc
  | cons o rest ih =>
    intro st hf hc
    rw [runReconnect] at hc ⊢
    by_cases hg : st.isReconnecting = true ∨ 3 ≤ st.reconnectAttempts ∨ st.lastPortPath = none
    · rw [if_pos hg] at hc ⊢
      rw [hf] at hc
      cases hc
    · rw [if_neg hg] at hc ⊢
      cases o with
      | openFail =>
        by_cases hlt : st.reconnectAttempts + 1 < 3
        · simp only [if_pos hlt] at hc ⊢
          exact ih _ (by simpa using hf) hc
        · simp only [if_neg hlt] at hc ⊢
          simp only [hf] at hc
          cases hc
      | openOk r =>
        cases r with
        | true =>
          simp only at hc ⊢
          exact ⟨rfl, rfl⟩
        | false =>
          by_cases hlt : st.reconnectAttempts + 1 < 3
          · simp only [if_pos hlt] at hc ⊢
            exact ih _ (by simpa using hf) hc
          · simp only [if_neg hlt] at hc ⊢
            simp only [hf] at hc
            cases hc

/-- C1: while connected, every classified inbound line (a line the decoder
classifies: the combined telemetry shape or the exact literal `OK`) marks the
device responding, clears the error, and re-arms a fresh 2000 ms countdown;
a line of any other shape changes nothing. When the countdown fires, the
device is marked not responding, the `DeviceNotResponding` error
("Device stopped responding.") is surfaced, and — guarded by the
has-attempted flag — `handleReconnection` is triggered exactly once per
responsiveness loss: no trigger happens when the flag is already set, and no
in-session event other than a reconnection run that ends in a fresh
successful liveness recovery (device responding, attempts reset) ever
clears the flag. -/
theorem c1_liveness_countdown_and_single_trigger :
    (∀ (data : JSStr) (st : SessionState), classifiedPreload (jsTrim data) = true →
      stepLine data st
        = { st with isDeviceResponding := true, error := none,
                    responseTimeout := some 2000,
                    classifiedCount := st.classifiedCount + 1 }) ∧
    (∀ (data : JSStr) (st : SessionState), classifiedPreload (jsTrim data) = false →
      stepLine data st = st) ∧
    (∀ st : SessionState, st.responseTimeout = some 0 →
      st.hasAttemptedReconnect = false → st.isConnected = true →
      step Ev.fireResponseTimeout st
        = { st with isDeviceResponding := false,
                    error := some "Device stopped responding.",
                    responseTimeout := none, hasAttemptedReconnect := true,
                    reconnectTriggers := st.reconnectTriggers + 1 }) ∧
    (∀ st : SessionState, st.responseTimeout = some 0 →
      st.hasAttemptedReconnect = true →
      (step Ev.fireResponseTimeout st).reconnectTriggers = st.reconnectTriggers ∧
      (step Ev.fireResponseTimeout st).hasAttemptedReconnect = true) ∧
    (∀ (e : Ev) (st : SessionState), st.hasAttemptedReconnect = true →
      (step e st).hasAttemptedReconnect = false →
      (∃ outs, e = Ev.reconnectRun outs) ∧
      (step e st).isDeviceResponding = true ∧ (step e st).reconnectAttempts = 0) := by
  refine ⟨?_, ?_, ?_, ?_, ?_⟩
  · intro data st h
    simp [stepLine, h]
  · intro data st h
    simp [stepLine, h]
  · intro st h0 hf hconn
    simp [step, h0, fireResponseTimeoutCb, hf, hconn]
  · intro st h0 hf
    simp [step, h0, fireResponseTimeoutCb, hf]
  · intro e st hf hc
    cases e with
    | line data =>
      exfalso
      have hflag : (step (Ev.line data) st).hasAttemptedReconnect = true := by
        by_cases h : classifiedPreload (jsTrim data) = true
        · simp [step, stepLine, h, hf]
        · simp [step, stepLine, h, hf]
      rw [hflag] at hc
      cases hc
    | elapse d =>
      exfalso
      have hflag : (step (Ev.elapse d) st).hasAttemptedReconnect = true := by
        by_cases h : elapseOk d st = true
        · simp [step, h, hf]
        · simp [step, h, hf]
      rw [hflag] at hc
      cases hc
    | fireResponseTimeout =>
      exfalso
      have hflag : (step Ev.fireResponseTimeout st).hasAttemptedReconnect = true := by
        by_cases h : st.responseTimeout = some 0
        · simp [step, h, fireResponseTimeoutCb, hf]
        · simp [step, h, hf]
      rw [hflag] at hc
      cases hc
    | fireGraceConnect w =>
      exfalso
      have hflag : (step (Ev.fireGraceConnect w) st).hasAttemptedReconnect = true := by
        by_cases h : st.graceTimer = some 0
        · simp [step, h, fireGraceConnectCb, hf]
        · simp [step, h, hf]
      rw [hflag] at hc
      cases hc
    | reconnectRun outs =>
      exact ⟨⟨outs, rfl⟩, runReconnect_flag_clear outs st hf hc⟩

/-- Witness for C1 at concrete inputs: the classified literal `OK` re-arms
the countdown on the fresh session, the unclassified line `hello` changes
nothing, the countdown firing on a connected session with a clear flag
triggers the reconnection once, and firing with the flag already set
triggers nothing. -/
theorem c1_liveness_countdown_and_single_trigger_witness :
    (stepLine (String.toList "OK") initialSession
      = { initialSession with isDeviceResponding := true, error := none,
                              responseTimeout := some 2000,
                              classifiedCount := initialSession.classifiedCount + 1 }) ∧
    (stepLine (String.toList "hello") initialSession = initialSession) ∧
    (step Ev.fireResponseTimeout
        { initialSession with isConnected := true, responseTimeout := some 0 }
      = { initialSession with
            isConnected := true, responseTimeout := none,
            isDeviceResponding := false,
            error := some "Device stopped responding.",
            hasAttemptedReconnect := true,
            reconnectTriggers :=
              ({ initialSession with
                  isConnected := true,
                  responseTimeout := some 0 } : SessionState).reconnectTriggers + 1 }) ∧
    ((step Ev.fireResponseTimeout
        { initialSession with isConnected := true, responseTimeout := some 0,
                              hasAttemptedReconnect := true }).reconnectTriggers
      = ({ initialSession with isConnected := true, responseTimeout := some 0,
                               hasAttemptedReconnect := true } : SessionState).reconnectTriggers) := by
  refine ⟨?_, ?_, ?_, ?_⟩
  · exact c1_liveness_countdown_and_single_trigger.1 _ _ (by decide)
  · exact c1_liveness_countdown_and_single_trigger.2.1 _ _ (by decide)
  · exact c1_liveness_countdown_and_single_trigger.2.2.1 _ rfl rfl rfl
  · exact (c1_liveness_countdown_and_single_trigger.2.2.2.1 _ rfl rfl).1

/-! ## C2 — reconnect mechanics, retry bound, terminal state -/

/-- C2: each reconnection attempt closes the transport, waits 1000 ms, and
reopens with the last known port and baud rate, re-arming a fresh 2000 ms
grace period when the reopen succeeds; a reopen failure increments
`reconnectAttempts` and retries; once `reconnectAttempts` reaches 3 no
further attempt is made; and on a run of three consecutive failures
(reopen failures, or reopen successes whose responsiveness probe fails)
exactly 3 attempts are performed — a fourth available outcome is never
consumed — the terminal device-not-responding error is surfaced, and the
session is not forced to disconnect (it stays connected, not responding). -/
theorem c2_reconnect_bounded_retries :
    (∀ (st : SessionState) (p : String) (r : Bool),
      st.isReconnecting = false → st.reconnectAttempts < 3 → st.lastPortPath = some p →
      (runReconnect [AttemptOutcome.openOk r] st).closeCount = st.closeCount + 1 ∧
      (runReconnect [AttemptOutcome.openOk r] st).waits = st.waits ++ [1000] ∧
      (runReconnect [AttemptOutcome.openOk r] st).openCalls
        = st.openCalls ++ [(p, st.lastBaudRate)] ∧
      (runReconnect [AttemptOutcome.openOk r] st).gracePeriodsArmed
        = st.gracePeriodsArmed ++ [2000]) ∧
    (∀ (st : SessionState) (p : String) (rest : List AttemptOutcome),
      st.isReconnecting = false → st.lastPortPath = some p →
      st.reconnectAttempts + 1 < 3 →
      runReconnect (AttemptOutcome.openFail :: rest) st
        = runReconnect rest
            { st with reconnectAttempts := st.reconnectAttempts + 1,
                      closeCount := st.closeCount + 1, waits := st.waits ++ [1000],
                      openCalls := st.openCalls ++ [(p, st.lastBaudRate)] }) ∧
    (∀ (outs : List AttemptOutcome) (st : SessionState),
      3 ≤ st.reconnectAttempts → runReconnect outs st = st) ∧
    (let st0 : SessionState :=
       { initialSession with lastPortPath := some "COM3", isConnected := true }
     (runReconnect [AttemptOutcome.openFail, AttemptOutcome.openFail,
                    AttemptOutcome.openFail, AttemptOutcome.openFail] st0).reconnectAttempts = 3 ∧
     (runReconnect [AttemptOutcome.openFail, AttemptOutcome.openFail,
                    AttemptOutcome.openFail, AttemptOutcome.openFail] st0).openCalls
       = [("COM3", 115200), ("COM3", 115200), ("COM3", 115200)] ∧
     (runReconnect [AttemptOutcome.openFail, AttemptOutcome.openFail,
                    AttemptOutcome.openFail, AttemptOutcome.openFail] st0).error
       = some "Failed to reconnect after multiple attempts" ∧
     (runReconnect [AttemptOutcome.openFail, AttemptOutcome.openFail,
                    AttemptOutcome.openFail, AttemptOutcome.openFail] st0).isConnected = true ∧
     (runReconnect [AttemptOutcome.openFail, AttemptOutcome.openFail,
                    AttemptOutcome.openFail, AttemptOutcome.openFail] st0).waits
       = [1000, 1000, 1000]) ∧
    (let st0 : SessionState :=
       { initialSession with lastPortPath := some "COM3", isConnected := true }
     (runReconnect [AttemptOutcome.openOk false, AttemptOutcome.openOk false,
                    AttemptOutcome.openOk false, AttemptOutcome.openOk false]
        st0).reconnectAttempts = 3 ∧
     (runReconnect [AttemptOutcome.openOk false, AttemptOutcome.openOk false,
                    AttemptOutcome.openOk false, AttemptOutcome.openOk false] st0).openCalls
       = [("COM3", 115200), ("COM3", 115200), ("COM3", 115200)] ∧
     (runReconnect [AttemptOutcome.openOk false, AttemptOutcome.openOk false,
                    AttemptOutcome.openOk false, AttemptOutcome.openOk false] st0).error
       = some "Device not responding after reconnection attempts" ∧
     (runReconnect [AttemptOutcome.openOk false, AttemptOutcome.openOk false,
                    AttemptOutcome.openOk false, AttemptOutcome.openOk false]
        st0).isConnected = true ∧
     (runReconnect [AttemptOutcome.openOk false, AttemptOutcome.openOk false,
                    AttemptOutcome.openOk false, AttemptOutcome.openOk false]
        st0).isDeviceResponding = false) := by
  refine ⟨?_, ?_, ?_, by decide, by decide⟩
  · intro st p r h1 h2 h3
    rw [runReconnect]
    rw [if_neg (by simp [h1, h3, Nat.not_le.mpr h2])]
    simp only [h3, Option.getD_some]
    cases r with
    | true => exact ⟨rfl, rfl, rfl, rfl⟩
    | false =>
      by_cases hlt : st.reconnectAttempts + 1 < 3
      · simp only [if_pos hlt]
        rw [runReconnect]
        exact ⟨rfl, rfl, rfl, rfl⟩
      · simp only [if_neg hlt]
        exact ⟨rfl, rfl, rfl, rfl⟩
  · intro st p rest h1 h3 hlt
    rw [runReconnect]
    rw [if_neg (by simp [h1, h3, Nat.not_le.mpr (Nat.lt_of_succ_lt hlt)])]
    simp only [h3, Option.getD_some]
    simp only [if_pos hlt]
  · intro outs st h
    cases outs with
    | nil => rw [runReconnect]
    | cons o rest =>
      rw [runReconnect]
      rw [if_pos (Or.inr (Or.inl h))]

/-- Witness for C2 at concrete inputs: one successful-reopen attempt from a
fresh reconnectable session records the close, the 1000 ms wait, the reopen
with the stored parameters, and the fresh grace period; one failed-reopen
attempt recurses with the counter incremented; and a session whose counter
already reached 3 is left untouched. -/
theorem c2_reconnect_bounded_retries_witness :
    (let stA : SessionState :=
       { initialSession with lastPortPath := some "COM3", isConnected := true }
     (runReconnect [AttemptOutcome.openOk true] stA).closeCount = stA.closeCount + 1 ∧
     (runReconnect [AttemptOutcome.openOk true] stA).waits = stA.waits ++ [1000] ∧
     (runReconnect [AttemptOutcome.openOk true] stA).openCalls
       = stA.openCalls ++ [("COM3", stA.lastBaudRate)] ∧
     (runReconnect [AttemptOutcome.openOk true] stA).gracePeriodsArmed
       = stA.gracePeriodsArmed ++ [2000]) ∧
    (let stA : SessionState :=
       { initialSession with lastPortPath := some "COM3", isConnected := true }
     runReconnect [AttemptOutcome.openFail] stA
       = runReconnect []
           { stA with reconnectAttempts := stA.reconnectAttempts + 1,
                      closeCount := stA.closeCount + 1, waits := stA.waits ++ [1000],
                      openCalls := stA.openCalls ++ [("COM3", stA.lastBaudRate)] }) ∧
    runReconnect [AttemptOutcome.openFail]
        { initialSession with lastPortPath := some "COM3", reconnectAttempts := 3 }
      = { initialSession with lastPortPath := some "COM3", reconnectAttempts := 3 } :=
  ⟨c2_reconnect_bounded_retries.1 _ "COM3" true rfl (by decide) rfl,
   c2_reconnect_bounded_retries.2.1 _ "COM3" [] rfl rfl (by decide),
   c2_reconnect_bounded_retries.2.2.1 _ _ (by decide)⟩

/-! ## C3 — post-connect grace period and the liveness probe -/

/-- Helper: along any line-free, reconnect-free event sequence whose elapsed
time stays strictly below the armed grace deadline, and starting from a
state with no error, no armed response timeout and device not yet marked
responding, those three facts persist. -/
theorem quiet_trace_invariant (es : List Ev) :
    ∀ (st : SessionState) (g : Nat),
      (∀ e ∈ es, quietEv e = true) →
      st.graceTimer = some g → st.error = none → st.responseTimeout = none →
      st.isDeviceResponding = false → elapsedSum es < g →
      (runEvents es st).error = none ∧ (runEvents es st).isDeviceResponding = false := by
  induction es with
  | nil =>
    intro st g _ _ he _ hd _
    exact ⟨he, hd⟩
  | cons e t ih =>
    intro st g hq hg he hr hd hsum
    have hqe := hq e (List.mem_cons_self e t)
    have hqt : ∀ x ∈ t, quietEv x = true := fun x hx => hq x (List.mem_cons_of_mem e hx)
    cases e with
    | line data => cases hqe
    | reconnectRun outs => cases hqe
    | elapse d =>
      have hdle : d ≤ g := by
        have : d + elapsedSum t < g := by simpa [elapsedSum] using hsum
        omega
      have hok : elapseOk d st = true := by
        simp [elapseOk, hr, hg, hdle]
      have hstep : step (Ev.elapse d) st
          = { st with responseTimeout := st.responseTimeout.map (· - d),
                      graceTimer := st.graceTimer.map (· - d) } := by
        simp [step, hok]
      rw [runEvents, List.foldl_cons, hstep]
      have : elapsedSum t < g - d := by
        have : d + elapsedSum t < g := by simpa [elapsedSum] using hsum
        omega
      exact ih _ (g - d) hqt (by simp [hg]) (by simp [he]) (by simp [hr]) (by simp [hd]) this
    | fireResponseTimeout =>
      have hstep : step Ev.fireResponseTimeout st = st := by
        simp [step, hr]
      rw [runEvents, List.foldl_cons, hstep]
      exact ih _ g hqt hg he hr hd (by simpa [elapsedSum] using hsum)
    | fireGraceConnect w =>
      have hgne : st.graceTimer ≠ some 0 := by
        rw [hg]
        intro hcontra
        have : g = 0 := by injection hcontra
        omega
      have hstep : step (Ev.fireGraceConnect w) st = st := by
        simp [step, hgne]
      rw [runEvents, List.foldl_cons, hstep]
      exact ih _ g hqt hg he hr hd (by simpa [elapsedSum] using hsum)

/-- C3, amended: after `connect()` succeeds at the transport level, no error
is surfaced during the 2000 ms grace period even if zero inbound lines
arrive; when the grace period elapses the `get all\n` liveness probe is
issued; and the device is then marked alive exactly when the transport write
succeeds — receipt of a classified line is *not* additionally required (the
original claim's "write success alone is not sufficient" fails on the code,
see the counterexample). A failed probe write surfaces the
device-not-responding error instead. -/
theorem c3_grace_period_and_probe :
    (∀ (port : String) (baud : Nat) (st : SessionState) (es : List Ev),
      (∀ e ∈ es, quietEv e = true) → elapsedSum es < 2000 →
      (runEvents es (connect port baud true st)).error = none ∧
      (runEvents es (connect port baud true st)).isDeviceResponding = false) ∧
    (∀ (w : Bool) (port : String) (baud : Nat) (st : SessionState),
      (step (Ev.fireGraceConnect w) (step (Ev.elapse 2000) (connect port baud true st))).writes
        = (connect port baud true st).writes ++ ["get all\n"] ∧
      (step (Ev.fireGraceConnect w)
        (step (Ev.elapse 2000) (connect port baud true st))).isDeviceResponding = w ∧
      (w = false →
        (step (Ev.fireGraceConnect w) (step (Ev.elapse 2000) (connect port baud true st))).error
          = some "Device not responding after connection")) := by
  constructor
  · intro port baud st es hq hsum
    exact quiet_trace_invariant es (connect port baud true st) 2000 hq
      (by simp [connect]) (by simp [connect]) (by simp [connect]) (by simp [connect]) hsum
  · intro w port baud st
    have h1 : step (Ev.elapse 2000) (connect port baud true st)
        = { connect port baud true st with
              responseTimeout := none, graceTimer := some 0 } := by
      simp [step, elapseOk, connect]
    rw [h1]
    have h2 : ({ connect port baud true st with
                  responseTimeout := none, graceTimer := some 0 } : SessionState).graceTimer
        = some 0 := rfl
    constructor
    · simp [step, h2, fireGraceConnectCb, connect]
    constructor
    · simp [step, h2, fireGraceConnectCb]
    · intro hw
      simp [step, h2, fireGraceConnectCb, hw, connect]

/-- Witness for C3 at concrete inputs: a quiet 1999 ms passes with no error
and the device still unmarked, and a failed probe write surfaces the
connection error. -/
theorem c3_grace_period_and_probe_witness :
    ((runEvents [Ev.elapse 1999] (connect "COM3" 115200 true initialSession)).error = none ∧
      (runEvents [Ev.elapse 1999]
        (connect "COM3" 115200 true initialSession)).isDeviceResponding = false) ∧
    ((step (Ev.fireGraceConnect false)
        (step (Ev.elapse 2000) (connect "COM3" 115200 true initialSession))).writes
      = (connect "COM3" 115200 true initialSession).writes ++ ["get all\n"] ∧
     (step (Ev.fireGraceConnect false)
        (step (Ev.elapse 2000)
          (connect "COM3" 115200 true initialSession))).isDeviceResponding = false ∧
     (false = false →
       (step (Ev.fireGraceConnect false)
          (step (Ev.elapse 2000) (connect "COM3" 115200 true initialSession))).error
         = some "Device not responding after connection")) :=
  ⟨c3_grace_period_and_probe.1 "COM3" 115200 initialSession [Ev.elapse 1999]
      (by decide) (by decide),
   c3_grace_period_and_probe.2 false "COM3" 115200 initialSession⟩

/-- C3, counterexample to the original claim: in the concrete post-grace
probe with a successful transport write and zero classified inbound lines
ever received, the code still marks the device alive — so "the device is
marked alive only if the transport write succeeds *and* a classified line is
received within the timeout (write success alone is not sufficient)" is
false of the code. -/
theorem c3_write_success_alone_marks_alive :
    (step (Ev.fireGraceConnect true)
        (step (Ev.elapse 2000)
          (connect "COM3" 115200 true initialSession))).isDeviceResponding = true ∧
    (step (Ev.fireGraceConnect true)
        (step (Ev.elapse 2000)
          (connect "COM3" 115200 true initialSession))).classifiedCount = 0 := by
  decide

/-! ## List and character lemmas for the decoder proofs -/

theorem takeWhile_append_all {α : Type} {p : α → Bool} (l1 l2 : List α)
    (h : ∀ c ∈ l1, p c = true) :
    (l1 ++ l2).takeWhile p = l1 ++ l2.takeWhile p := by
  induction l1 with
  | nil => simp
  | cons c t ih =>
    simp only [List.cons_append, List.takeWhile_cons, h c (List.mem_cons_self c t), if_true]
    rw [ih fun x hx => h x (List.mem_cons_of_mem c hx)]

theorem dropWhile_append_all {α : Type} {p : α → Bool} (l1 l2 : List α)
    (h : ∀ c ∈ l1, p c = true) :
    (l1 ++ l2).dropWhile p = l2.dropWhile p := by
  induction l1 with
  | nil => simp
  | cons c t ih =>
    simp only [List.cons_append, List.dropWhile_cons, h c (List.mem_cons_self c t), if_true]
    exact ih fun x hx => h x (List.mem_cons_of_mem c hx)

theorem takeWhile_all {α : Type} {p : α → Bool} (l : List α) (h : ∀ c ∈ l, p c = true) :
    l.takeWhile p = l := by
  have := takeWhile_append_all (p := p) l [] h
  simpa using this

theorem dropWhile_all_false {α : Type} {p : α → Bool} (l : List α)
    (h : ∀ c ∈ l, p c = false) : l.dropWhile p = l := by
  cases l with
  | nil => rfl
  | cons c t =>
    rw [List.dropWhile_cons, if_neg]
    rw [h c (List.mem_cons_self c t)]
    exact Bool.false_ne_true

theorem jsTrim_eq_self (l : JSStr) (h : ∀ c ∈ l, jsIsWhitespace c = false) :
    jsTrim l = l := by
  unfold jsTrim
  rw [dropWhile_all_false l h]
  rw [dropWhile_all_false l.reverse fun c hc => h c (List.mem_reverse.mp hc)]
  exact List.reverse_reverse l

theorem isPrefixOf_append_self (l r : JSStr) : l.isPrefixOf (l ++ r) = true :=
  List.isPrefixOf_iff_prefix.mpr (List.prefix_append l r)

theorem containsL_append_self (n pre suf : JSStr) : containsL n (pre ++ (n ++ suf)) = true := by
  induction pre with
  | nil =>
    cases hn : n with
    | nil =>
      cases suf with
      | nil => rfl
      | cons c t => simp [containsL]
    | cons m mt =>
      simp only [List.nil_append, containsL]
      show ((m :: mt).isPrefixOf ((m :: mt) ++ suf) || containsL (m :: mt) (mt ++ suf)) = true
      rw [isPrefixOf_append_self]
      simp
  | cons c pt ih =>
    simp only [List.cons_append, containsL, List.append_eq]
    rw [ih]
    simp

theorem jsSplit_not_mem (sep : Char) (l : JSStr) (h : sep ∉ l) : jsSplit sep l = [l] := by
  induction l with
  | nil => rfl
  | cons c t ih =>
    have hc : ¬ c = sep := fun e => h (e ▸ List.mem_cons_self c t)
    rw [jsSplit, if_neg hc, ih fun m => h (List.mem_cons_of_mem c m)]

theorem jsSplit_append_cons (sep : Char) (l r : JSStr) (h : sep ∉ l) :
    jsSplit sep (l ++ sep :: r) = l :: jsSplit sep r := by
  induction l with
  | nil => simp [jsSplit]
  | cons c t ih =>
    have hc : ¬ c = sep := fun e => h (e ▸ List.mem_cons_self c t)
    rw [List.cons_append, jsSplit, if_neg hc, ih fun m => h (List.mem_cons_of_mem c m)]

theorem regexCapture_append_self (pat s : JSStr) (hp : pat ≠ []) (hs : s ≠ [])
    (hall : ∀ c ∈ s, numClass c = true) :
    regexCapture pat (pat ++ s) = some s := by
  cases pat with
  | nil => cases hp rfl
  | cons p pt =>
    rw [List.cons_append, regexCapture]
    rw [show p :: (pt ++ s) = (p :: pt) ++ s from rfl]
    rw [isPrefixOf_append_self]
    simp only [if_true]
    rw [List.drop_left]
    rw [takeWhile_all s hall]
    rw [if_neg]
    rw [List.isEmpty_iff]
    exact hs

theorem digit_not_ws (c : Char) (h : c.isDigit = true) : jsIsWhitespace c = false := by
  by_contra hw
  rw [Bool.not_eq_false] at hw
  have : c = ' ' ∨ c = '\t' ∨ c = '\n' ∨ c = '\r' ∨ c = '\x0b' ∨ c = '\x0c' := by
    simpa [jsIsWhitespace, or_assoc] using hw
  rcases this with rfl | rfl | rfl | rfl | rfl | rfl <;> exact absurd h (by decide)

theorem digit_ne_char (c d : Char) (h : c.isDigit = true) (hd : d.isDigit = false) :
    ¬ c = d := by
  intro e
  rw [e, hd] at h
  cases h

theorem digit_numClass (c : Char) (h : c.isDigit = true) : numClass c = true := by
  simp [numClass, h]

theorem infinity_not_prefix_cons (c : Char) (t : JSStr) (h : ¬ c = 'I') :
    (String.toList "Infinity").isPrefixOf (c :: t) = false := by
  rw [← Bool.not_eq_true, List.isPrefixOf_iff_prefix]
  intro hp
  rw [show String.toList "Infinity" = 'I' :: String.toList "nfinity" from rfl] at hp
  rw [List.cons_prefix_cons] at hp
  exact h hp.1.symm

/-! ## parseFloat on well-formed float literals -/

/-- A well-formed float literal parses to its mathematical value. -/
theorem parseFloat_render (f : FloatLit) (hwf : f.wf) :
    parseFloat f.render = JSNum.num f.value := by
  obtain ⟨hint, hfr, hne⟩ := hwf
  rcases f with ⟨neg, ds, fr⟩
  simp only at hint hfr hne
  cases fr with
  | some fs =>
    have hfs : ∀ c ∈ fs, c.isDigit = true := hfr fs rfl
    have h1 : List.takeWhile Char.isDigit (ds ++ '.' :: fs) = ds := by
      rw [takeWhile_append_all ds _ hint, List.takeWhile_cons]
      simp
    have h2 : List.dropWhile Char.isDigit (ds ++ '.' :: fs) = '.' :: fs := by
      rw [dropWhile_append_all ds _ hint, List.dropWhile_cons]
      simp
    have h3 : List.takeWhile Char.isDigit fs = fs := takeWhile_all fs hfs
    have h4 : List.dropWhile Char.isDigit fs = [] := by
      have := List.takeWhile_append_dropWhile (p := Char.isDigit) (l := fs)
      rw [h3] at this
      simpa using this
    have h5 : ¬ (['I', 'n', 'f', 'i', 'n', 'i', 't', 'y'] <+: ds ++ '.' :: fs) := by
      intro hp
      cases ds with
      | nil =>
        rw [List.nil_append, List.cons_prefix_cons] at hp
        cases hp.1
      | cons c t =>
        rw [List.cons_append, List.cons_prefix_cons] at hp
        exact digit_ne_char c 'I' (hint c (List.mem_cons_self c t)) (by decide) hp.1.symm
    have h6 : (ds.isEmpty && fs.isEmpty) = false := by
      rcases hne with h | ⟨fs2, he, hfs2⟩
      · simp [List.isEmpty_iff, h]
      · cases he
        simp [List.isEmpty_iff, hfs2]
    cases neg with
    | true =>
      have h0 : List.dropWhile jsIsWhitespace ('-' :: (ds ++ '.' :: fs))
          = '-' :: (ds ++ '.' :: fs) := by
        rw [List.dropWhile_cons]
        simp [show jsIsWhitespace '-' = false from by decide]
      simp [FloatLit.render, FloatLit.value, parseFloat, h0, h1, h2, h3, h4, h5, h6]
    | false =>
      cases ds with
      | nil =>
        have h0 : List.dropWhile jsIsWhitespace ('.' :: fs) = '.' :: fs := by
          rw [List.dropWhile_cons]
          simp [show jsIsWhitespace '.' = false from by decide]
        simp only [List.nil_append] at h1 h2 h5 ⊢
        simp [FloatLit.render, FloatLit.value, parseFloat, h0, h1, h2, h3, h4, h5, h6]
        rcases hne with h | ⟨fs2, he, hfs2⟩
        · exact absurd rfl h
        · cases he
          exact hfs2
      | cons c t =>
        have hcd : c.isDigit = true := hint c (List.mem_cons_self c t)
        have htd : ∀ x ∈ t, x.isDigit = true := fun x hx => hint x (List.mem_cons_of_mem c hx)
        have h1t : List.takeWhile Char.isDigit (t ++ '.' :: fs) = t := by
          rw [takeWhile_append_all t _ htd, List.takeWhile_cons]
          simp
        have h2t : List.dropWhile Char.isDigit (t ++ '.' :: fs) = '.' :: fs := by
          rw [dropWhile_append_all t _ htd, List.dropWhile_cons]
          simp
        have hcw : jsIsWhitespace c = false := digit_not_ws c hcd
        have hcm : ¬ c = '-' := digit_ne_char c '-' hcd (by decide)
        have hcp : ¬ c = '+' := digit_ne_char c '+' hcd (by decide)
        have hI : ¬ 'I' = c := fun e => digit_ne_char c 'I' hcd (by decide) e.symm
        simp [FloatLit.render, FloatLit.value, parseFloat, h1t, h2t, h3, h4, h6,
          hcd, hcw, hcm, hcp, hI]
  | none =>
    have hds : ds ≠ [] := by
      rcases hne with h | ⟨fs2, he, _⟩
      · exact h
      · cases he
    have h1 : List.takeWhile Char.isDigit ds = ds := takeWhile_all ds hint
    have h2 : List.dropWhile Char.isDigit ds = [] := by
      have := List.takeWhile_append_dropWhile (p := Char.isDigit) (l := ds)
      rw [h1] at this
      simpa using this
    have h6 : ds.isEmpty = false := by simp [List.isEmpty_iff, hds]
    cases ds with
    | nil => cases hds rfl
    | cons c t =>
      have hcd : c.isDigit = true := hint c (List.mem_cons_self c t)
      have h5 : ¬ (['I', 'n', 'f', 'i', 'n', 'i', 't', 'y'] <+: c :: t) := by
        intro hp
        rw [List.cons_prefix_cons] at hp
        exact digit_ne_char c 'I' hcd (by decide) hp.1.symm
      cases neg with
      | true =>
        have h0 : List.dropWhile jsIsWhitespace ('-' :: (c :: t))
            = '-' :: (c :: t) := by
          rw [List.dropWhile_cons]
          simp [show jsIsWhitespace '-' = false from by decide]
        simp [FloatLit.render, FloatLit.value, parseFloat, h0, h1, h2, h5, h6,
          show digitsToNat [] = 0 from rfl]
      | false =>
        have h0 : List.dropWhile jsIsWhitespace (c :: t) = c :: t := by
          rw [List.dropWhile_cons]
          simp [digit_not_ws c hcd]
        have hcw : jsIsWhitespace c = false := digit_not_ws c hcd
        have hcm : ¬ c = '-' := digit_ne_char c '-' hcd (by decide)
        have hcp : ¬ c = '+' := digit_ne_char c '+' hcd (by decide)
        simp [FloatLit.render, FloatLit.value, parseFloat, h0, h1, h2, h5, h6, hcd, hcw,
          hcm, hcp, show digitsToNat [] = 0 from rfl]

/-! ## Character facts about rendered float literals -/

theorem numClass_not_ws (c : Char) (h : numClass c = true) : jsIsWhitespace c = false := by
  have : c = '-' ∨ c.isDigit = true ∨ c = '.' := by
    simpa [numClass, or_assoc] using h
  rcases this with rfl | hd | rfl
  · decide
  · exact digit_not_ws c hd
  · decide

theorem render_numClass (f : FloatLit) (hwf : f.wf) :
    ∀ c ∈ f.render, numClass c = true := by
  obtain ⟨hint, hfr, _⟩ := hwf
  rcases f with ⟨neg, ds, fr⟩
  simp only at hint hfr
  intro c hc
  simp only [FloatLit.render, List.mem_append] at hc
  rcases hc with (hc | hc) | hc
  · cases neg with
    | true =>
      simp only [if_true, List.mem_singleton] at hc
      subst hc
      decide
    | false => simp at hc
  · exact digit_numClass c (hint c hc)
  · cases fr with
    | some fs =>
      simp only [List.mem_cons] at hc
      rcases hc with rfl | hc
      · decide
      · exact digit_numClass c (hfr fs rfl c hc)
    | none => simp at hc

theorem render_not_ws (f : FloatLit) (hwf : f.wf) :
    ∀ c ∈ f.render, jsIsWhitespace c = false :=
  fun c hc => numClass_not_ws c (render_numClass f hwf c hc)

theorem comma_not_mem_render (f : FloatLit) (hwf : f.wf) : ',' ∉ f.render := by
  intro hm
  have := render_numClass f hwf ',' hm
  exact absurd this (by decide)

theorem render_ne_nil (f : FloatLit) (hwf : f.wf) : f.render ≠ [] := by
  obtain ⟨_, _, hne⟩ := hwf
  rcases f with ⟨neg, ds, fr⟩
  simp only at hne
  simp only [FloatLit.render]
  intro h
  rcases List.append_eq_nil.mp h with ⟨h1, hfp⟩
  rcases List.append_eq_nil.mp h1 with ⟨_, hds⟩
  rcases hne with hl | ⟨fs, he, _⟩
  · exact hl hds
  · rw [he] at hfp
    cases hfp

theorem isPrefixOf_false_of_head_ne (a b : Char) (as bs : JSStr) (h : ¬ a = b) :
    (a :: as).isPrefixOf (b :: bs) = false := by
  rw [← Bool.not_eq_true, List.isPrefixOf_iff_prefix]
  intro hp
  exact h (List.cons_prefix_cons.mp hp).1

/-! ## `updateState` on single-field updates -/

theorem updateState_angle (v : JSNum) (s : TFDState) :
    updateState { currentAngle := some v } s = { s with currentAngle := v } := rfl

theorem updateState_velocity (v : JSNum) (s : TFDState) :
    updateState { currentVelocity := some v } s = { s with currentVelocity := v } := rfl

theorem updateState_torque (v : JSNum) (s : TFDState) :
    updateState { currentTorque := some v } s = { s with currentTorque := v } := rfl

/-! ## The mini-tfd decoder on single-field lines -/

/-- A `VEL:<float>` line updates exactly the velocity. -/
theorem decodeMini_vel (f : FloatLit) (s : TFDState) (hwf : f.wf) :
    decodeMini (String.toList "VEL:" ++ f.render) s
      = ⟨{ s with currentVelocity := JSNum.num f.value }, [], false⟩ := by
  have htrim : jsTrim (String.toList "VEL:" ++ f.render)
      = String.toList "VEL:" ++ f.render := by
    apply jsTrim_eq_self
    rw [List.forall_mem_append]
    exact ⟨by decide, render_not_ws f hwf⟩
  have hA : (String.toList "ANGLE:").isPrefixOf (String.toList "VEL:" ++ f.render)
      = false := by
    rw [show String.toList "ANGLE:" = 'A' :: String.toList "NGLE:" from rfl,
      show String.toList "VEL:" ++ f.render = 'V' :: (String.toList "EL:" ++ f.render)
        from rfl]
    exact isPrefixOf_false_of_head_ne 'A' 'V' _ _ (by decide)
  have hV : (String.toList "VEL:").isPrefixOf (String.toList "VEL:" ++ f.render) = true :=
    isPrefixOf_append_self _ _
  simp only [decodeMini]
  rw [htrim, hA, hV]
  simp only [Bool.false_eq_true, if_false, if_true]
  rw [show (String.toList "VEL:" ++ f.render).drop 4 = f.render from rfl]
  rw [parseFloat_render f hwf]
  rfl

/-- An `ANGLE:<float>` line updates exactly the (clamped) angle. -/
theorem decodeMini_angle (f : FloatLit) (s : TFDState) (hwf : f.wf) :
    decodeMini (String.toList "ANGLE:" ++ f.render) s
      = ⟨{ s with currentAngle := clampAngleMini s (JSNum.num f.value) }, [], false⟩ := by
  have htrim : jsTrim (String.toList "ANGLE:" ++ f.render)
      = String.toList "ANGLE:" ++ f.render := by
    apply jsTrim_eq_self
    rw [List.forall_mem_append]
    exact ⟨by decide, render_not_ws f hwf⟩
  have hA : (String.toList "ANGLE:").isPrefixOf (String.toList "ANGLE:" ++ f.render)
      = true := isPrefixOf_append_self _ _
  simp only [decodeMini]
  rw [htrim, hA]
  simp only [if_true]
  rw [show (String.toList "ANGLE:" ++ f.render).drop 6 = f.render from rfl]
  rw [parseFloat_render f hwf]
  rfl

/-- A `TORQUE:<float>` line updates exactly the torque. -/
theorem decodeMini_torque (f : FloatLit) (s : TFDState) (hwf : f.wf) :
    decodeMini (String.toList "TORQUE:" ++ f.render) s
      = ⟨{ s with currentTorque := JSNum.num f.value }, [], false⟩ := by
  have htrim : jsTrim (String.toList "TORQUE:" ++ f.render)
      = String.toList "TORQUE:" ++ f.render := by
    apply jsTrim_eq_self
    rw [List.forall_mem_append]
    exact ⟨by decide, render_not_ws f hwf⟩
  have hA : (String.toList "ANGLE:").isPrefixOf (String.toList "TORQUE:" ++ f.render)
      = false := by
    rw [show String.toList "ANGLE:" = 'A' :: String.toList "NGLE:" from rfl,
      show String.toList "TORQUE:" ++ f.render = 'T' :: (String.toList "ORQUE:" ++ f.render)
        from rfl]
    exact isPrefixOf_false_of_head_ne 'A' 'T' _ _ (by decide)
  have hV : (String.toList "VEL:").isPrefixOf (String.toList "TORQUE:" ++ f.render)
      = false := by
    rw [show String.toList "VEL:" = 'V' :: String.toList "EL:" from rfl,
      show String.toList "TORQUE:" ++ f.render = 'T' :: (String.toList "ORQUE:" ++ f.render)
        from rfl]
    exact isPrefixOf_false_of_head_ne 'V' 'T' _ _ (by decide)
  have hT : (String.toList "TORQUE:").isPrefixOf (String.toList "TORQUE:" ++ f.render)
      = true := isPrefixOf_append_self _ _
  simp only [decodeMini]
  rw [htrim, hA, hV, hT]
  simp only [Bool.false_eq_true, if_false, if_true]
  rw [show (String.toList "TORQUE:" ++ f.render).drop 7 = f.render from rfl]
  rw [parseFloat_render f hwf]
  rfl

/-- The preload decoder leaves the state untouched on any line that is not
in the combined sensor format. -/
theorem decodePreload_not_sensor (data : JSStr) (s : TFDState)
    (h : isSensorDataPreload (jsTrim data) = false) :
    decodePreload data s = ⟨s, [], false⟩ := by
  simp only [decodePreload]
  rw [h]
  simp

/-! ## The preload decoder on combined telemetry lines -/

/-- A combined `ANGLE:<f1>,VEL:<f2>,TORQUE:<f3>` line with well-formed float
literals decodes to the full telemetry sample. -/
theorem decodePreload_combined (f1 f2 f3 : FloatLit) (s : TFDState)
    (hw1 : f1.wf) (hw2 : f2.wf) (hw3 : f3.wf) :
    decodePreload (mkCombined f1 f2 f3) s
      = ⟨{ s with currentAngle := JSNum.num f1.value,
                  currentVelocity := JSNum.num f2.value,
                  currentTorque := JSNum.num f3.value }, [], false⟩ := by
  have hnc1 : ',' ∉ String.toList "ANGLE:" ++ f1.render := by
    intro h
    rcases List.mem_append.mp h with h | h
    · exact absurd h (by decide)
    · exact comma_not_mem_render f1 hw1 h
  have hnc2 : ',' ∉ String.toList "VEL:" ++ f2.render := by
    intro h
    rcases List.mem_append.mp h with h | h
    · exact absurd h (by decide)
    · exact comma_not_mem_render f2 hw2 h
  have hnc3 : ',' ∉ String.toList "TORQUE:" ++ f3.render := by
    intro h
    rcases List.mem_append.mp h with h | h
    · exact absurd h (by decide)
    · exact comma_not_mem_render f3 hw3 h
  have htrim : jsTrim (mkCombined f1 f2 f3) = mkCombined f1 f2 f3 := by
    apply jsTrim_eq_self
    simp only [mkCombined, List.forall_mem_append]
    exact ⟨⟨⟨⟨⟨by decide, render_not_ws f1 hw1⟩, by decide⟩, render_not_ws f2 hw2⟩,
      by decide⟩, render_not_ws f3 hw3⟩
  have hres : mkCombined f1 f2 f3
      = (String.toList "ANGLE:" ++ f1.render)
        ++ ',' :: ((String.toList "VEL:" ++ f2.render)
          ++ ',' :: (String.toList "TORQUE:" ++ f3.render)) := by
    simp [mkCombined, List.append_assoc]
  have hsplit : jsSplit ',' (mkCombined f1 f2 f3)
      = [String.toList "ANGLE:" ++ f1.render, String.toList "VEL:" ++ f2.render,
         String.toList "TORQUE:" ++ f3.render] := by
    rw [hres, jsSplit_append_cons ',' _ _ hnc1, jsSplit_append_cons ',' _ _ hnc2,
      jsSplit_not_mem ',' _ hnc3]
  have hsensor : isSensorDataPreload (mkCombined f1 f2 f3) = true := by
    unfold isSensorDataPreload
    have hp : (String.toList "ANGLE:").isPrefixOf (mkCombined f1 f2 f3) = true := by
      have h : mkCombined f1 f2 f3
          = String.toList "ANGLE:"
            ++ (f1.render ++ (String.toList ",VEL:" ++ (f2.render
              ++ (String.toList ",TORQUE:" ++ f3.render)))) := by
        simp [mkCombined, List.append_assoc]
      rw [h]
      exact isPrefixOf_append_self _ _
    have hv : containsL (String.toList "VEL:") (mkCombined f1 f2 f3) = true := by
      have h : mkCombined f1 f2 f3
          = ((String.toList "ANGLE:" ++ f1.render) ++ [','])
            ++ (String.toList "VEL:" ++ (f2.render
              ++ (String.toList ",TORQUE:" ++ f3.render))) := by
        simp [mkCombined, List.append_assoc]
      rw [h]
      exact containsL_append_self _ _ _
    have ht : containsL (String.toList "TORQUE:") (mkCombined f1 f2 f3) = true := by
      have h : mkCombined f1 f2 f3
          = ((String.toList "ANGLE:" ++ f1.render)
              ++ (',' :: (String.toList "VEL:" ++ f2.render)) ++ [','])
            ++ (String.toList "TORQUE:" ++ f3.render) := by
        simp [mkCombined, List.append_assoc]
      rw [h]
      exact containsL_append_self _ _ _
    rw [hp, hv, ht]
    rfl
  have hcap1 : regexCapture (String.toList "ANGLE:") (String.toList "ANGLE:" ++ f1.render)
      = some f1.render :=
    regexCapture_append_self _ _ (by decide) (render_ne_nil f1 hw1) (render_numClass f1 hw1)
  have hcap2 : regexCapture (String.toList "VEL:") (String.toList "VEL:" ++ f2.render)
      = some f2.render :=
    regexCapture_append_self _ _ (by decide) (render_ne_nil f2 hw2) (render_numClass f2 hw2)
  have hcap3 : regexCapture (String.toList "TORQUE:") (String.toList "TORQUE:" ++ f3.render)
      = some f3.render :=
    regexCapture_append_self _ _ (by decide) (render_ne_nil f3 hw3) (render_numClass f3 hw3)
  simp only [decodePreload]
  rw [htrim, hsensor]
  simp only [if_true]
  rw [hsplit]
  simp only [hcap1, hcap2, hcap3, applyAngleCap, applyVelCap, applyTorqueCap,
    parseFloat_render f1 hw1, parseFloat_render f2 hw2, parseFloat_render f3 hw3]
  rfl

/-! ## Well-formedness introduction lemmas for concrete float literals -/

theorem FloatLit.wf_some (neg : Bool) (ds fs : List Char)
    (h1 : ∀ c ∈ ds, c.isDigit = true) (h2 : ∀ c ∈ fs, c.isDigit = true)
    (h3 : ds ≠ [] ∨ fs ≠ []) : FloatLit.wf ⟨neg, ds, some fs⟩ := by
  refine ⟨h1, ?_, ?_⟩
  · intro l hl
    rw [Option.mem_def] at hl
    injection hl with h
    subst h
    exact h2
  · rcases h3 with h | h
    · exact Or.inl h
    · exact Or.inr ⟨fs, rfl, h⟩

theorem FloatLit.wf_none (neg : Bool) (ds : List Char)
    (h1 : ∀ c ∈ ds, c.isDigit = true) (h3 : ds ≠ []) :
    FloatLit.wf ⟨neg, ds, none⟩ := by
  refine ⟨h1, ?_, Or.inl h3⟩
  intro l hl
  rw [Option.mem_def] at hl
  cases hl

/-! ## NaN-preservation of the decoder update blocks -/

theorem clampAngleMini_ne_nan (s : TFDState) (v : JSNum) (h : v ≠ JSNum.nan) :
    clampAngleMini s v ≠ JSNum.nan := by
  unfold clampAngleMini
  split
  · cases v with
    | nan => exact absurd rfl h
    | num q => simp [jsMin, jsMax]
    | inf b => cases b <;> simp [jsMin, jsMax]
  · exact h

theorem applyAngleCap_fields (acc : TFDState × List String) (o : Option JSStr) :
    (applyAngleCap acc o).1.currentVelocity = acc.1.currentVelocity ∧
    (applyAngleCap acc o).1.currentTorque = acc.1.currentTorque ∧
    (acc.1.currentAngle ≠ JSNum.nan → (applyAngleCap acc o).1.currentAngle ≠ JSNum.nan) := by
  cases o with
  | none => exact ⟨rfl, rfl, fun h => h⟩
  | some cap =>
    simp only [applyAngleCap]
    cases hp : parseFloat cap with
    | nan => exact ⟨rfl, rfl, fun h => h⟩
    | num q =>
      refine ⟨rfl, rfl, fun _ => ?_⟩
      simp [clampAnglePreload, updateState_angle]
    | inf b =>
      refine ⟨rfl, rfl, fun _ => ?_⟩
      simp [clampAnglePreload, updateState_angle]

theorem applyVelCap_fields (acc : TFDState × List String) (o : Option JSStr) :
    (applyVelCap acc o).1.currentAngle = acc.1.currentAngle ∧
    (applyVelCap acc o).1.currentTorque = acc.1.currentTorque ∧
    (acc.1.currentVelocity ≠ JSNum.nan →
      (applyVelCap acc o).1.currentVelocity ≠ JSNum.nan) := by
  cases o with
  | none => exact ⟨rfl, rfl, fun h => h⟩
  | some cap =>
    simp only [applyVelCap]
    cases hp : parseFloat cap with
    | nan => exact ⟨rfl, rfl, fun h => h⟩
    | num q =>
      refine ⟨rfl, rfl, fun _ => ?_⟩
      simp [updateState_velocity]
    | inf b =>
      refine ⟨rfl, rfl, fun _ => ?_⟩
      simp [updateState_velocity]

theorem applyTorqueCap_fields (acc : TFDState × List String) (o : Option JSStr) :
    (applyTorqueCap acc o).1.currentAngle = acc.1.currentAngle ∧
    (applyTorqueCap acc o).1.currentVelocity = acc.1.currentVelocity ∧
    (acc.1.currentTorque ≠ JSNum.nan →
      (applyTorqueCap acc o).1.currentTorque ≠ JSNum.nan) := by
  cases o with
  | none => exact ⟨rfl, rfl, fun h => h⟩
  | some cap =>
    simp only [applyTorqueCap]
    cases hp : parseFloat cap with
    | nan => exact ⟨rfl, rfl, fun h => h⟩
    | num q =>
      refine ⟨rfl, rfl, fun _ => ?_⟩
      simp [updateState_torque]
    | inf b =>
      refine ⟨rfl, rfl, fun _ => ?_⟩
      simp [updateState_torque]

/-! ## C7 — combined telemetry line decoding -/

/-- C7: decoding `ANGLE:12.50,VEL:-3.20,TORQUE:0.75` yields the full sample
(12.5, −3.2, 0.75); in general, every line matching the pattern
`ANGLE:<float>,VEL:<float>,TORQUE:<float>` (comma-separated, fields in this
fixed order, i.e. every `mkCombined` of well-formed float literals) yields a
full sample holding the three parsed values. -/
theorem c7_combined_telemetry_decoding :
    (decodePreload (String.toList "ANGLE:12.50,VEL:-3.20,TORQUE:0.75") initialStatePreload
      = ⟨{ initialStatePreload with
             currentAngle := JSNum.num (25 / 2),
             currentVelocity := JSNum.num (-16 / 5),
             currentTorque := JSNum.num (3 / 4) }, [], false⟩) ∧
    (∀ (f1 f2 f3 : FloatLit) (s : TFDState), f1.wf → f2.wf → f3.wf →
      decodePreload (mkCombined f1 f2 f3) s
        = ⟨{ s with currentAngle := JSNum.num f1.value,
                    currentVelocity := JSNum.num f2.value,
                    currentTorque := JSNum.num f3.value }, [], false⟩) := by
  constructor
  · have h := decodePreload_combined ⟨false, ['1', '2'], some ['5', '0']⟩
      ⟨true, ['3'], some ['2', '0']⟩ ⟨false, ['0'], some ['7', '5']⟩
      initialStatePreload
      (FloatLit.wf_some false _ _ (by decide) (by decide) (Or.inl (by decide)))
      (FloatLit.wf_some true _ _ (by decide) (by decide) (Or.inl (by decide)))
      (FloatLit.wf_some false _ _ (by decide) (by decide) (Or.inl (by decide)))
    have v1 : FloatLit.value ⟨false, ['1', '2'], some ['5', '0']⟩ = 25 / 2 := by
      simp [FloatLit.value, digitsToNat]
      norm_num
    have v2 : FloatLit.value ⟨true, ['3'], some ['2', '0']⟩ = -16 / 5 := by
      simp [FloatLit.value, digitsToNat]
      norm_num
    have v3 : FloatLit.value ⟨false, ['0'], some ['7', '5']⟩ = 3 / 4 := by
      simp [FloatLit.value, digitsToNat]
      norm_num
    rw [v1, v2, v3] at h
    rw [show String.toList "ANGLE:12.50,VEL:-3.20,TORQUE:0.75"
        = mkCombined ⟨false, ['1', '2'], some ['5', '0']⟩ ⟨true, ['3'], some ['2', '0']⟩
            ⟨false, ['0'], some ['7', '5']⟩ from by decide]
    exact h
  · exact fun f1 f2 f3 s h1 h2 h3 => decodePreload_combined f1 f2 f3 s h1 h2 h3

/-- Witness for C7: the general combined-line statement instantiated at the
concrete line `ANGLE:1,VEL:2,TORQUE:3`. -/
theorem c7_combined_telemetry_decoding_witness :
    decodePreload
        (mkCombined ⟨false, ['1'], none⟩ ⟨false, ['2'], none⟩ ⟨false, ['3'], none⟩)
        initialStatePreload
      = ⟨{ initialStatePreload with
             currentAngle := JSNum.num (FloatLit.value ⟨false, ['1'], none⟩),
             currentVelocity := JSNum.num (FloatLit.value ⟨false, ['2'], none⟩),
             currentTorque := JSNum.num (FloatLit.value ⟨false, ['3'], none⟩) },
         [], false⟩ :=
  c7_combined_telemetry_decoding.2 ⟨false, ['1'], none⟩ ⟨false, ['2'], none⟩
    ⟨false, ['3'], none⟩ initialStatePreload
    (FloatLit.wf_none false _ (by decide) (by decide))
    (FloatLit.wf_none false _ (by decide) (by decide))
    (FloatLit.wf_none false _ (by decide) (by decide))

/-! ## C4 — single-field telemetry lines -/

/-- C4, counterexample to the original claim: the single-field telemetry
line `VEL:-3.2` is entirely discarded by the `preload.js` decoder — the
session state is unchanged, no warning beyond the raw log, and the line is
not even classified for liveness — because that decoder only parses the
combined format. (The `mini-tfd-control.tsx` decoder does merge it, shown in
the third conjunct.) So "the decoder produces a partial telemetry sample …
rather than the line being discarded as unrecognized" is false for the
`preload.js` decoder the claim cites. -/
theorem c4_preload_discards_single_field :
    decodePreload (String.toList "VEL:-3.2") initialStatePreload
      = ⟨initialStatePreload, [], false⟩ ∧
    classifiedPreload (jsTrim (String.toList "VEL:-3.2")) = false ∧
    decodeMini (String.toList "VEL:-3.2") initialStateMini
      = ⟨{ initialStateMini with
             currentVelocity := JSNum.num (FloatLit.value ⟨true, ['3'], some ['2']⟩) },
         [], false⟩ := by
  refine ⟨decodePreload_not_sensor _ _ (by decide), by decide, ?_⟩
  exact decodeMini_vel ⟨true, ['3'], some ['2']⟩ initialStateMini
    (FloatLit.wf_some true _ _ (by decide) (by decide) (Or.inl (by decide)))

/-- C4, amended: in the `mini-tfd-control.tsx` decoder, every inbound line
consisting of a single telemetry field (`ANGLE:<float>`, `VEL:<float>` or
`TORQUE:<float>` alone) produces a partial update setting only that field
(the angle via `clampAngle`), leaving the other telemetry fields unchanged;
the `preload.js` decoder instead discards every line that is not in the
combined format, leaving the state unchanged. -/
theorem c4_single_field_merge :
    (∀ (f : FloatLit) (s : TFDState), f.wf →
      decodeMini (String.toList "ANGLE:" ++ f.render) s
        = ⟨{ s with currentAngle := clampAngleMini s (JSNum.num f.value) }, [], false⟩) ∧
    (∀ (f : FloatLit) (s : TFDState), f.wf →
      decodeMini (String.toList "VEL:" ++ f.render) s
        = ⟨{ s with currentVelocity := JSNum.num f.value }, [], false⟩) ∧
    (∀ (f : FloatLit) (s : TFDState), f.wf →
      decodeMini (String.toList "TORQUE:" ++ f.render) s
        = ⟨{ s with currentTorque := JSNum.num f.value }, [], false⟩) ∧
    (∀ (data : JSStr) (s : TFDState), isSensorDataPreload (jsTrim data) = false →
      decodePreload data s = ⟨s, [], false⟩) :=
  ⟨fun f s h => decodeMini_angle f s h, fun f s h => decodeMini_vel f s h,
   fun f s h => decodeMini_torque f s h, fun d s h => decodePreload_not_sensor d s h⟩

theorem c4_single_field_merge_witness :
    decodeMini (String.toList "VEL:" ++ FloatLit.render ⟨true, ['3'], some ['2']⟩)
        initialStateMini
      = ⟨{ initialStateMini with
             currentVelocity := JSNum.num (FloatLit.value ⟨true, ['3'], some ['2']⟩) },
         [], false⟩ :=
  c4_single_field_merge.2.1 ⟨true, ['3'], some ['2']⟩ initialStateMini
    (FloatLit.wf_some true _ _ (by decide) (by decide) (Or.inl (by decide)))

/-! ## C8 — decoder robustness: no crash, no NaN -/

/-- C8: for every inbound line both decoders terminate normally (they are
total functions; the only exception path in the `preload.js` decoder — fewer
than three comma-parts — is caught by its `try`/`catch` before any update,
leaving the state untouched); a field that is present syntactically but
fails to parse as a number is treated as absent: NaN is never stored into
any telemetry field, and (third conjunct) a `VEL:`-prefixed line whose
suffix does not parse leaves the state unchanged with exactly the
warning-level diagnostic emitted. -/
theorem c8_decoder_never_throws_no_nan :
    (∀ (data : JSStr) (s : TFDState),
      (decodeMini data s).caught = false ∧
      (s.currentAngle ≠ JSNum.nan → (decodeMini data s).state.currentAngle ≠ JSNum.nan) ∧
      (s.currentVelocity ≠ JSNum.nan →
        (decodeMini data s).state.currentVelocity ≠ JSNum.nan) ∧
      (s.currentTorque ≠ JSNum.nan → (decodeMini data s).state.currentTorque ≠ JSNum.nan)) ∧
    (∀ (data : JSStr) (s : TFDState),
      ((decodePreload data s).caught = true → (decodePreload data s).state = s) ∧
      (s.currentAngle ≠ JSNum.nan → (decodePreload data s).state.currentAngle ≠ JSNum.nan) ∧
      (s.currentVelocity ≠ JSNum.nan →
        (decodePreload data s).state.currentVelocity ≠ JSNum.nan) ∧
      (s.currentTorque ≠ JSNum.nan →
        (decodePreload data s).state.currentTorque ≠ JSNum.nan)) ∧
    (∀ (data : JSStr) (s : TFDState),
      (String.toList "VEL:").isPrefixOf (jsTrim data) = true →
      parseFloat ((jsTrim data).drop 4) = JSNum.nan →
      decodeMini data s = ⟨s, ["Received non-numeric velocity data"], false⟩) := by
  refine ⟨?_, ?_, ?_⟩
  · intro data s
    simp only [decodeMini]
    split
    · split
      · exact ⟨rfl, fun h => h, fun h => h, fun h => h⟩
      · refine ⟨rfl, fun _ => ?_, fun h => h, fun h => h⟩
        simp only [updateState_angle]
        exact clampAngleMini_ne_nan s _ (by assumption)
    · split
      · split
        · exact ⟨rfl, fun h => h, fun h => h, fun h => h⟩
        · refine ⟨rfl, fun h => h, fun _ => ?_, fun h => h⟩
          simp only [updateState_velocity]
          assumption
      · split
        · split
          · exact ⟨rfl, fun h => h, fun h => h, fun h => h⟩
          · refine ⟨rfl, fun h => h, fun h => h, fun _ => ?_⟩
            simp only [updateState_torque]
            assumption
        · exact ⟨rfl, fun h => h, fun h => h, fun h => h⟩
  · intro data s
    simp only [decodePreload]
    split
    · split
      · rename_i p0 p1 p2 rest heq
        have hA := applyAngleCap_fields (s, [])
          (regexCapture (String.toList "ANGLE:") p0)
        have hV := applyVelCap_fields (applyAngleCap (s, [])
          (regexCapture (String.toList "ANGLE:") p0))
          (regexCapture (String.toList "VEL:") p1)
        have hT := applyTorqueCap_fields (applyVelCap (applyAngleCap (s, [])
          (regexCapture (String.toList "ANGLE:") p0))
          (regexCapture (String.toList "VEL:") p1))
          (regexCapture (String.toList "TORQUE:") p2)
        refine ⟨fun h => (nomatch h), fun h => ?_, fun h => ?_, fun h => ?_⟩
        · rw [hT.1, hV.1]
          exact hA.2.2 h
        · rw [hT.2.1]
          exact hV.2.2 (by rw [hA.1]; exact h)
        · exact hT.2.2 (by rw [hV.2.1, hA.2.1]; exact h)
      · exact ⟨fun _ => rfl, fun h => h, fun h => h, fun h => h⟩
    · exact ⟨fun h => (nomatch h), fun h => h, fun h => h, fun h => h⟩
  · intro data s hV hnan
    have hA : (String.toList "ANGLE:").isPrefixOf (jsTrim data) = false := by
      rcases List.isPrefixOf_iff_prefix.mp hV with ⟨t, ht⟩
      rw [← ht]
      rw [show String.toList "ANGLE:" = 'A' :: String.toList "NGLE:" from rfl,
        show String.toList "VEL:" ++ t = 'V' :: (String.toList "EL:" ++ t) from rfl]
      exact isPrefixOf_false_of_head_ne 'A' 'V' _ _ (by decide)
    simp only [decodeMini]
    rw [hA, hV]
    simp only [Bool.false_eq_true, if_false, if_true]
    rw [hnan]

theorem c8_decoder_never_throws_no_nan_witness :
    ((decodeMini (String.toList "VEL:abc") initialStateMini).caught = false ∧
      (initialStateMini.currentAngle ≠ JSNum.nan →
        (decodeMini (String.toList "VEL:abc") initialStateMini).state.currentAngle
          ≠ JSNum.nan) ∧
      (initialStateMini.currentVelocity ≠ JSNum.nan →
        (decodeMini (String.toList "VEL:abc") initialStateMini).state.currentVelocity
          ≠ JSNum.nan) ∧
      (initialStateMini.currentTorque ≠ JSNum.nan →
        (decodeMini (String.toList "VEL:abc") initialStateMini).state.currentTorque
          ≠ JSNum.nan)) ∧
    decodeMini (String.toList "VEL:abc") initialStateMini
      = ⟨initialStateMini, ["Received non-numeric velocity data"], false⟩ :=
  ⟨c8_decoder_never_throws_no_nan.1 (String.toList "VEL:abc") initialStateMini,
   c8_decoder_never_throws_no_nan.2.2 (String.toList "VEL:abc") initialStateMini
     (by decide) (by decide)⟩

end KnobGUI
